import Mathlib

/-! ## Verification of the KMI MIDI device manager


A shallow embedding of the core of the `kmi_midi_device_manager` repository:

* the KMI SysEx codec (`src/kmiSysEx/kmiSysEx.cpp`, classes `KMI_Encode` and
  `KMI_Decode`),
* the port registry diff (`src/KMI_ports.cpp`, `KMI_Ports::checkPortsForChanges`),
* the device-session pieces of `src/KMI_mdm.cpp`: the firmware-update state
  machine switch of `MidiDeviceManager::slotPollVersion`, the outgoing-buffer
  drain `slotEmptyMIDIBuffer`, and the channel-message parser `slotParsePacket`
  with its NRPN/RPN assembler.

C++ machine integers are embedded as `Nat` with explicit masking (`&&& 0xFF`,
`&&& 0xFFFF`) wherever the C code narrows, and as `Int` where the C code uses
signed arithmetic (`Int.tdiv` models C's truncating integer division).
Qt signal emissions are embedded as values of event inductive types collected
in lists, in emission order.
-/

set_option maxRecDepth 100000

namespace kmiSysEx

/-! ## Constants (midi.h, kmiSysEx.h) -/

def MIDI_SX_START : Nat := 0xF0
def MIDI_SX_STOP : Nat := 0xF7
def kmi_id_1 : Nat := 0x00
def kmi_id_2 : Nat := 0x01
def kmi_id_3 : Nat := 0x5F
def SX_PREAMBLE_SIZE_CRC : Nat := 6
def SX_ENCODE_LEN : Nat := 7
def MAX_SX_BUFFER_SIZE : Nat := 1024
def TAIL_LEN : Nat := 4

/-- `reverseBytes` (kmiSysEx.cpp line 7): byte-swap of a `uint16_t`. -/
def reverseBytes (value : Nat) : Nat :=
  ((value >>> 8) ||| (value <<< 8)) &&& 0xFFFF

/-- `get16bit` (`KMI_Decode::get16bit`): `((msb << 8) | lsb) & 0xFFFF`. -/
def get16bit (msb lsb : Nat) : Nat :=
  ((msb <<< 8) ||| lsb) &&& 0xFFFF

/-- `crc_byte` — identical in `KMI_Encode` and `KMI_Decode`.  The C parameter
has type `char`, which is signed: a byte `val ≥ 0x80` is sign-extended before
the 16-bit XOR, so the high byte of `temp` becomes `0xFF`.  `sv` below is the
16-bit two's-complement image of that signed `char`. -/
def crc_byte (crc val : Nat) : Nat :=
  let v := val &&& 0xFF
  let sv := if v < 0x80 then v else 0xFF00 ||| v
  let temp := ((crc >>> 8) ^^^ sv) &&& 0xFFFF
  let crc1 := (crc <<< 8) &&& 0xFFFF
  let quick := temp ^^^ (temp >>> 4)
  let crc2 := crc1 ^^^ quick
  let quick5 := (quick <<< 5) &&& 0xFFFF
  let crc3 := crc2 ^^^ quick5
  let quick12 := (quick5 <<< 7) &&& 0xFFFF
  (crc3 ^^^ quick12) &&& 0xFFFF

/-! ## Encoder (`KMI_Encode`)

The encoder object's mutable members: the output buffer `msg` (with write index
`msgIndex`, here represented by the list itself), the 8-to-7-bit packing
accumulator `midi_hi_bits` / `midi_hi_count`, and the running `crc`. -/

structure EncState where
  msg : List Nat
  midi_hi_bits : Nat
  midi_hi_count : Nat
  crc : Nat
deriving Repr

/-- `KMI_Encode::midi_sx_encode_char`: emit the low 7 bits, accumulate bit 7
into `midi_hi_bits`, and after every 7th data byte emit the accumulated
continuation byte and reset the count. -/
def midi_sx_encode_char (s : EncState) (val : Nat) : EncState :=
  let v := val &&& 0xFF
  let hi := (s.midi_hi_bits ||| (v &&& 0x80)) >>> 1
  let m := s.msg ++ [v &&& 0x7F]
  if s.midi_hi_count + 1 == SX_ENCODE_LEN then
    { s with msg := m ++ [hi], midi_hi_bits := hi, midi_hi_count := 0 }
  else
    { s with msg := m, midi_hi_bits := hi, midi_hi_count := s.midi_hi_count + 1 }

/-- `KMI_Encode::midi_sx_encode_crc_char`: accumulate the byte into the CRC,
then emit it. -/
def midi_sx_encode_crc_char (s : EncState) (val : Nat) : EncState :=
  midi_sx_encode_char { s with crc := crc_byte s.crc (val &&& 0xFF) } val

/-- `KMI_Encode::midi_sx_encode_crc_int`: big-endian 16-bit emit with CRC. -/
def midi_sx_encode_crc_int (s : EncState) (val : Nat) : EncState :=
  midi_sx_encode_crc_char (midi_sx_encode_crc_char s (val >>> 8)) val

/-- `KMI_Encode::midi_sx_encode_int`: big-endian 16-bit emit, no CRC. -/
def midi_sx_encode_int (s : EncState) (val : Nat) : EncState :=
  midi_sx_encode_char (midi_sx_encode_char s (val >>> 8)) val

/-- Fuel-indexed body of `midi_sx_flush`'s `while (midi_hi_count)` loop.  Each
`midi_sx_encode_char` increments `midi_hi_count` modulo 7, so the loop runs at
most 6 times; fuel `SX_ENCODE_LEN = 7` therefore never runs out. -/
def flushAux : Nat → EncState → EncState
  | 0, s => s
  | fuel + 1, s =>
    if s.midi_hi_count == 0 then s else flushAux fuel (midi_sx_encode_char s 0)

/-- `KMI_Encode::midi_sx_flush`: pad with zero bytes until the current 7-byte
group (and its continuation byte) is complete. -/
def midi_sx_flush (s : EncState) : EncState :=
  flushAux SX_ENCODE_LEN s

/-- `KMI_Encode::midi_sx_header`: `msgIndex = 0`, then
`F0 id1 id2 id3 00 PID 00` followed by four null bytes. -/
def midi_sx_header (s : EncState) (PID : Nat) : EncState :=
  { s with msg := [MIDI_SX_START, kmi_id_1, kmi_id_2, kmi_id_3, 0, PID &&& 0xFF, 0x00, 0, 0, 0, 0] }

/-- `KMI_Encode::midi_sx_packet_preamble`: reset the CRC, emit the `0x01`
start-of-encoding marker, start a fresh bit-packing group (`midi_chunk_init`),
then emit (with CRC) the 16-bit packet type and `length + TAIL_LEN`, and
finally the 16-bit CRC itself (not CRC-accumulated). -/
def midi_sx_packet_preamble (s : EncState) (packet_type length : Nat) : EncState :=
  let s1 : EncState :=
    { s with crc := 0xFFFF, msg := s.msg ++ [0x01], midi_hi_bits := 0, midi_hi_count := 0 }
  let s2 := midi_sx_encode_crc_int s1 packet_type
  let s3 := midi_sx_encode_crc_int s2 (length + TAIL_LEN)
  midi_sx_encode_int s3 s3.crc

/-- Semantically trivial strictness hint (always `true`), as for the decoder:
it makes the kernel evaluate the encoder's accumulators once per payload byte
so that multi-hundred-byte frames can be handled by `decide`. -/
def encForce (s : EncState) : Bool :=
  s.crc == s.crc && s.midi_hi_bits == s.midi_hi_bits && s.midi_hi_count == s.midi_hi_count

/-- `KMI_Encode::midi_sx_data_crc`: emit every payload byte with CRC
accumulation (`for (i = 0; i < length; i++) midi_sx_encode_crc_char(data[i])`;
both branches of the `encForce` test are identical). -/
def midi_sx_data_crc : EncState → List Nat → EncState
  | s, [] => s
  | s, v :: rest =>
    let s2 := midi_sx_encode_crc_char s (v &&& 0xFF)
    if encForce s2 then midi_sx_data_crc s2 rest else midi_sx_data_crc s2 rest

/-- `KMI_Encode::midi_sx_packet_data`: reset the CRC, then `midi_sx_data_crc`. -/
def midi_sx_packet_data (s : EncState) (data : List Nat) : EncState :=
  midi_sx_data_crc { s with crc := 0xFFFF } data

/-- `KMI_Encode::midi_sx_packet_data_close`: emit (with CRC) the 16-bit length
of the next packet (`0` if none, else `length + TAIL_LEN`), then the 16-bit
payload CRC (not CRC-accumulated). -/
def midi_sx_packet_data_close (s : EncState) (length : Nat) : EncState :=
  let s1 := midi_sx_encode_crc_int s (if length != 0 then length + TAIL_LEN else 0)
  midi_sx_encode_int s1 s1.crc

/-- `KMI_Encode::slotEncodePacket`: build the whole frame and emit
`signalSendSysEx(&msg[0], msgIndex - 1)`.  Note the `- 1`: the emitted byte
count excludes the final byte written by `midi_sx_close` (the `0xF7`
end-of-exclusive marker), which is why the result drops the last element. -/
def slotEncodePacket (PID category type : Nat) (data : List Nat) : List Nat :=
  let packet_type := (((category &&& 0xFF) <<< 8) &&& 0xFF00) ||| (type &&& 0xFF)
  let s0 : EncState := { msg := [], midi_hi_bits := 0, midi_hi_count := 0, crc := 0 }
  let s1 := midi_sx_header s0 PID
  let s2 := midi_sx_packet_preamble s1 packet_type data.length
  let s3 := if data.length != 0 then
              midi_sx_packet_data_close (midi_sx_packet_data s2 data) 0
            else s2
  let s4 := midi_sx_flush s3
  let s5 : EncState := { s4 with msg := s4.msg ++ [MIDI_SX_STOP] }
  s5.msg.dropLast

/-! ## Decoder (`KMI_Decode`)

`slotDecodePacket` is a single pass over the raw SysEx byte array.  Early
`return` statements of the C function are embedded as `Except` short-circuits
carrying a `DecResult`. -/

/-- In-place update of a list cell, modelling `buf[i] = v`. -/
def listSet : List Nat → Nat → Nat → List Nat
  | [], _, _ => []
  | _ :: rest, 0, v => v :: rest
  | b :: rest, n + 1, v => b :: listSet rest n v

/-- The `core_sx_decode` member of `KMI_Decode`: an 8-byte buffer with an input
and an output index for undoing the 7-bit packing. -/
structure SxDecodeSt where
  index_in : Nat
  index_out : Nat
  buf : List Nat
deriving Repr

/-- `KMI_Decode::sx_decode_init`. -/
def sx_decode_init (s : SxDecodeSt) : SxDecodeSt :=
  { s with index_in := 0, index_out := 0 }

/-- `KMI_Decode::midi_sx_decode_put`: `buf[index_in++] = val`. -/
def midi_sx_decode_put (s : SxDecodeSt) (val : Nat) : SxDecodeSt :=
  { s with buf := listSet s.buf s.index_in (val &&& 0xFF), index_in := s.index_in + 1 }

/-- `KMI_Decode::midi_sx_decode_get`: once 8 raw bytes are in, deliver the next
of the 7 data bytes, restoring its high bit from bit 0 of `buf[7]` and shifting
`buf[7]` right; after the 7th delivery reset the buffer. -/
def midi_sx_decode_get (s : SxDecodeSt) : Option (Nat × SxDecodeSt) :=
  if s.index_in == SX_ENCODE_LEN + 1 then
    let v0 := s.buf.getD s.index_out 0
    let b7 := s.buf.getD SX_ENCODE_LEN 0
    let v := if b7 &&& 1 == 1 then v0 ||| 0x80 else v0
    let s1 : SxDecodeSt :=
      { s with buf := listSet s.buf SX_ENCODE_LEN (b7 >>> 1), index_out := s.index_out + 1 }
    some (v, if s1.index_out == SX_ENCODE_LEN then sx_decode_init s1 else s1)
  else
    none

/-- The `PACKET_PAYLOAD` struct (kmiSysEx.h).  The fixed 1024-byte `data`
buffer is modelled as the list of bytes written so far (writes are sequential
from index 0, so the list is the written prefix); `maxWriteIndex` is
instrumentation recording the largest index the C code writes to `data`, so
that the bounded-buffer safety claim can be stated — the C code itself performs
the write `payload.data[payload.index++] = val` unconditionally. -/
structure PACKET_PAYLOAD where
  index : Nat
  length : Nat
  crcLSB : Nat
  crcMSB : Nat
  crcIndex : Nat
  crcWhole : Nat
  data : List Nat
  maxWriteIndex : Option Nat
deriving Repr

/-- The `PACKET_PREAMBLE` union (kmiSysEx.h): six raw bytes overlaid (packed,
little-endian) with `uint8 category, type; uint16 dataLength_with_preamble,
crc`.  The union is kept as its `raw` view; 16-bit members are loaded and
stored little-endian through it. -/
structure PACKET_PREAMBLE where
  raw : List Nat
deriving Repr

/-- Little-endian 16-bit load of `raw` bytes `i` and `i+1` (the union's view of
a `uint16_t` member). -/
def preambleWord (p : PACKET_PREAMBLE) (i : Nat) : Nat :=
  ((p.raw.getD (i + 1) 0) <<< 8) ||| p.raw.getD i 0

/-- Little-endian 16-bit store into `raw` bytes `i` and `i+1`. -/
def preambleStoreWord (p : PACKET_PREAMBLE) (i v : Nat) : PACKET_PREAMBLE :=
  { p with raw := listSet (listSet p.raw i (v &&& 0xFF)) (i + 1) ((v >>> 8) &&& 0xFF) }

/-- Result of `KMI_Decode::slotDecodePacket`.  `emitted` is the
`signalRxKMIPacket(PID, category, type, ptr, length)` emission; the other
constructors name the `return` sites of the C function that emit nothing. -/
inductive DecOutcome where
  | notKmi
  | scanPastEnd
  | scanUnexpectedStop
  | preambleCrcFail
  | payloadCrcFail
  | payloadOverrun
  | noPacket
  | emitted (PID category type : Nat) (data : List Nat) (length : Nat)
deriving DecidableEq, Repr

structure DecResult where
  outcome : DecOutcome
  maxWriteIndex : Option Nat
deriving DecidableEq, Repr

/-- The decoder's mutable state while scanning the encoded region. -/
structure DecodeCtx where
  msgPID : Nat
  crc : Nat
  core_sx_decode : SxDecodeSt
  core_sx_count : Nat
  preamble : PACKET_PREAMBLE
  payload : PACKET_PAYLOAD
deriving Repr

def mkDecResult (c : DecodeCtx) (o : DecOutcome) : DecResult :=
  { outcome := o, maxWriteIndex := c.payload.maxWriteIndex }

/-- Body of `slotDecodePacket`'s inner `while (midi_sx_decode_get(&val))` loop
(kmiSysEx.cpp lines 77–173) for a single decoded byte `val`: CRC selected
bytes, store into preamble / payload / payload-CRC slots, fix endianness of
the length word when it completes, check the preamble CRC when the preamble
completes, and compare the payload CRC when its second byte arrives. -/
def processVal (c : DecodeCtx) (val : Nat) : Except DecResult DecodeCtx := do
  -- CRC accumulation condition (lines 78–84)
  let c := if c.core_sx_count < 4 ∨
              (SX_PREAMBLE_SIZE_CRC ≤ c.core_sx_count ∧ c.payload.index < c.payload.length) then
             { c with crc := crc_byte c.crc val }
           else c
  -- storage branches (lines 87–114)
  let c ← (if c.core_sx_count < SX_PREAMBLE_SIZE_CRC then
             let pr : PACKET_PREAMBLE := ⟨listSet c.preamble.raw c.core_sx_count val⟩
             pure { c with preamble := pr, core_sx_count := c.core_sx_count + 1 }
           else if c.payload.index < c.payload.length then
             let pl := { c.payload with
                         data := c.payload.data ++ [val],
                         index := c.payload.index + 1,
                         maxWriteIndex := some (match c.payload.maxWriteIndex with
                                                | none => c.payload.index
                                                | some m => max m c.payload.index) }
             pure { c with payload := pl, core_sx_count := c.core_sx_count + 1 }
           else if c.payload.crcIndex == 0 then
             pure { c with payload := { c.payload with crcMSB := val, crcIndex := 1 } }
           else if c.payload.crcIndex == 1 then
             pure { c with payload := { c.payload with crcLSB := val, crcIndex := 2 } }
           else
             throw (mkDecResult c .payloadOverrun) : Except DecResult DecodeCtx)
  -- "just received length" (lines 116–121)
  let c := if c.core_sx_count == 4 then
             let v := reverseBytes (preambleWord c.preamble 2)
             let c := { c with payload := { c.payload with length := v } }
             { c with preamble := preambleStoreWord c.preamble 2 (v + SX_PREAMBLE_SIZE_CRC) }
           else c
  -- preamble complete / payload-CRC complete (lines 125–173)
  if c.core_sx_count == SX_PREAMBLE_SIZE_CRC then
    let v := reverseBytes (preambleWord c.preamble 4)
    let c := { c with preamble := preambleStoreWord c.preamble 4 v }
    if c.crc != v then
      throw (mkDecResult c .preambleCrcFail)
    else
      pure { c with crc := 0xFFFF }  -- crc_init()
  else if c.payload.crcIndex != 0 then
    if c.payload.crcIndex == 2 then
      let pl := { c.payload with crcIndex := 3, crcWhole := get16bit c.payload.crcMSB c.payload.crcLSB }
      let c := { c with payload := pl }
      if c.payload.crcWhole == c.crc then
        let c := { c with core_sx_decode := sx_decode_init c.core_sx_decode }
        throw (mkDecResult c (.emitted c.msgPID (c.preamble.raw.getD 0 0)
                 (c.preamble.raw.getD 1 0) c.payload.data c.payload.length))
      else
        throw (mkDecResult { c with core_sx_decode := sx_decode_init c.core_sx_decode }
                 .payloadCrcFail)
    else if 2 < c.payload.crcIndex then
      -- "ERROR: byte rx after payload" — increments the index and keeps going
      pure { c with payload := { c.payload with crcIndex := c.payload.crcIndex + 1 } }
    else
      pure c
  else
    pure c

/-- The inner `while (midi_sx_decode_get(&val))` loop.  A single
`midi_sx_decode_put` makes at most 7 `midi_sx_decode_get` calls succeed before
the buffer resets, so fuel 8 never runs out. -/
def getLoop : Nat → DecodeCtx → Except DecResult DecodeCtx
  | 0, c => pure c
  | fuel + 1, c =>
    match midi_sx_decode_get c.core_sx_decode with
    | none => pure c
    | some (v, sx) => do
      let c1 ← processVal { c with core_sx_decode := sx } v
      getLoop fuel c1

/-- Semantically trivial strictness hint (always `true`): comparing each
counter with itself makes the kernel evaluate it to a literal once per input
byte, so that kilobyte-sized frames can be decoded by `decide` without
building deeply nested thunk chains.  It does not alter the decoder's value. -/
def decForce (c : DecodeCtx) : Bool :=
  c.crc == c.crc && c.core_sx_count == c.core_sx_count &&
  c.payload.index == c.payload.index && c.payload.length == c.payload.length &&
  c.payload.crcIndex == c.payload.crcIndex &&
  c.payload.maxWriteIndex == c.payload.maxWriteIndex

/-- The outer `while (decodeIndex < length)` loop (lines 67–176): read one raw
byte, `midi_sx_decode_put` it, then drain `midi_sx_decode_get`.  Falling off
the end of the input returns without emitting.  (Both branches of the
`decForce` test are identical — see `decForce`.) -/
def decodeLoop (c : DecodeCtx) : List Nat → DecResult
  | [] => mkDecResult c .noPacket
  | b :: rest =>
    let c1 := { c with core_sx_decode := midi_sx_decode_put c.core_sx_decode (b &&& 0xFF) }
    match getLoop 8 c1 with
    | .error r => r
    | .ok c2 => if decForce c2 then decodeLoop c2 rest else decodeLoop c2 rest

/-- The `while ((uchar)sysExBA[decodeIndex++] != 1)` scan for the
start-of-encoding marker (lines 51–63), on the suffix of the input starting at
index 6.  After consuming a byte that is not `1`, the C code returns an error
if the new index is past the end, or if the byte now pointed at is `0xF7`. -/
def scanForStart : List Nat → Except DecResult (List Nat)
  | [] => throw ⟨.scanPastEnd, none⟩
  | b :: rest =>
    if b &&& 0xFF == 1 then pure rest
    else match rest with
      | [] => throw ⟨.scanPastEnd, none⟩
      | b2 :: _ =>
        if b2 &&& 0xFF == MIDI_SX_STOP then throw ⟨.scanUnexpectedStop, none⟩
        else scanForStart rest

/-- `QByteArray::indexOf` of a two-byte needle: position of its first
occurrence, if any. -/
def indexOfPair (a b : Nat) : List Nat → Option Nat
  | [] => none
  | [_] => none
  | x :: y :: rest =>
    if x == a && y == b then some 0
    else (indexOfPair a b (y :: rest)).map (· + 1)

/-- `KMI_Decode::slotDecodePacket` (kmiSysEx.cpp lines 21–177).  The KMI check
builds the three-byte header `{kmi_id_1, kmi_id_2, kmi_id_3}` but passes only
**two** bytes to `QByteArray(packetTypeHeader, 2)`, so only `kmi_id_1` and
`kmi_id_2` are required (as the first occurrence of that pair, at index 1);
`kmi_id_3` is never compared.  The product id is read at index 5, then the
scan for the `0x01` start-of-encoding marker begins at index 6. -/
def slotDecodePacket (sysExBA : List Nat) : DecResult :=
  if indexOfPair kmi_id_1 kmi_id_2 (sysExBA.map (· &&& 0xFF)) ≠ some 1 then
    ⟨.notKmi, none⟩
  else
    let msgPID := sysExBA.getD 5 0 &&& 0xFF
    let c0 : DecodeCtx :=
      { msgPID := msgPID,
        crc := 0xFFFF,  -- core_sx_packet_init → crc_init
        core_sx_decode := { index_in := 0, index_out := 0, buf := [0, 0, 0, 0, 0, 0, 0, 0] },
        core_sx_count := 0,
        preamble := ⟨[0, 0, 0, 0, 0, 0]⟩,  -- memset(&preamble, 0, …)
        payload := { index := 0, length := 0, crcLSB := 0, crcMSB := 0, crcIndex := 0,
                     crcWhole := 0, data := [], maxWriteIndex := none } }
    match scanForStart (sysExBA.drop 6) with
    | .error r => r
    | .ok rest => decodeLoop c0 rest

/-! ## Concrete test-frame construction

Helpers used only to build concrete byte sequences fed to `slotDecodePacket`
in the theorems below.  `crc_over` folds `crc_byte` from the `0xFFFF` reset
value; `pack7` performs the encoder's 8-to-7-bit packing (groups of 7 data
bytes followed by one continuation byte, the final group zero-padded). -/

/-- Fold of `crc_byte` with per-step forcing (the `c2 == c2` test is always
true; it only keeps kernel evaluation shallow on long inputs). -/
def crcFoldAux : Nat → List Nat → Nat
  | c, [] => c
  | c, b :: rest =>
    let c2 := crc_byte c b
    if c2 == c2 then crcFoldAux c2 rest else crcFoldAux c2 rest

def crc_over (bs : List Nat) : Nat := crcFoldAux 0xFFFF bs

/-- Bit `i` of the continuation byte holds bit 7 of the `i`-th byte of the
group. -/
def hiByteOf (group : List Nat) : Nat :=
  group.enum.foldl (fun acc p => acc ||| (((p.2 >>> 7) &&& 1) <<< p.1)) 0

def pack7Go : List Nat → List Nat → List Nat
  | acc, [] =>
    if acc.isEmpty then []
    else
      let full := acc ++ List.replicate (SX_ENCODE_LEN - acc.length) 0
      full.map (· &&& 0x7F) ++ [hiByteOf full]
  | acc, b :: rest =>
    if acc.length == SX_ENCODE_LEN - 1 then
      (acc ++ [b]).map (· &&& 0x7F) ++ [hiByteOf (acc ++ [b])] ++ pack7Go [] rest
    else
      pack7Go (acc ++ [b]) rest

def pack7 (l : List Nat) : List Nat := pack7Go [] l

/-- A SysEx frame laid out exactly as `slotDecodePacket` expects: header with a
chosen third manufacturer-id byte, product id at offset 5, the `0x01` marker at
offset 11, then the 7-bit-packed encoded region consisting of the 4 preamble
bytes, their CRC, `body`, and the CRC of the first `lenWord` `body` bytes. -/
def craftKmiFrame (id3 pid cat typ lenWord : Nat) (body : List Nat) : List Nat :=
  let pre := [cat, typ, (lenWord >>> 8) &&& 0xFF, lenWord &&& 0xFF]
  let pcrc := crc_over pre
  let bodyCrc := crc_over (body.take lenWord)
  let D := pre ++ [pcrc >>> 8, pcrc &&& 0xFF] ++ body ++ [bodyCrc >>> 8, bodyCrc &&& 0xFF]
  [MIDI_SX_START, kmi_id_1, kmi_id_2, id3, 0, pid, 0, 0, 0, 0, 0, 1] ++ pack7 D

end kmiSysEx

namespace KMI_Ports

/-! ## Port registry (`src/KMI_ports.cpp`)

`KMI_Ports` retains two `QMap<QString, int>` members (`midiInputPorts`,
`midiOutputPorts`).  A `QMap` is embedded as an association list of
`(name, index)` pairs with unique keys; `QMap` stores and iterates entries in
key order, and the only place list order is observable in the claims below is
the order of events *across* the three passes of `checkPortsForChanges`
(deletions, then additions, then renumbers), which the embedding reproduces
exactly; within a single pass the event order follows the list order of the
retained/fresh map. -/

/-- `PORT_IN` / `PORT_OUT` of the `signalPortUpdated` emissions. -/
inductive PortDir where
  | input
  | output
deriving DecidableEq, Repr

/-- `PORT_CONNECT` / `PORT_DISCONNECT` / `PORT_CHANGED`. -/
inductive PortChange where
  | connect
  | disconnect
  | changed
deriving DecidableEq, Repr

/-- One `signalPortUpdated(name, direction, change, port)` emission. -/
structure PortEvent where
  name : String
  dir : PortDir
  change : PortChange
  port : Int
deriving DecidableEq, Repr

/-- `QMap::contains`. -/
def portMapContains (m : List (String × Int)) (k : String) : Bool :=
  m.any (·.1 == k)

/-- `QMap::value` with the default-constructed value `int() = 0` for a missing
key (used by the FIND CHANGED passes via `newInputPortMap.value(name)`). -/
def portMapValue (m : List (String × Int)) (k : String) : Int :=
  match m.find? (·.1 == k) with
  | some e => e.2
  | none => 0

/-- `QMap::insert`: replace the value if the key exists, otherwise add the
entry. -/
def portMapInsert (m : List (String × Int)) (k : String) (v : Int) : List (String × Int) :=
  match m with
  | [] => [(k, v)]
  | (k0, v0) :: rest =>
    if k0 == k then (k, v) :: rest else (k0, v0) :: portMapInsert rest k v

/-- Loading `newInputPortMap` / `newOutputPortMap` (lines 163–183): for each
port index in enumeration order, skip names that normalized to `"None"` or
`""`, otherwise `insert(newPortName, thisPort)`.  `names` is the OS
enumeration after `portNameFix` normalization, listed by port index. -/
def buildPortMap (names : List String) : List (String × Int) :=
  (names.enum.filter (fun p => p.2 ≠ "None" ∧ p.2 ≠ "")).foldl
    (fun m p => portMapInsert m p.2 (Int.ofNat p.1)) []

/-- DELETE pass (lines 189–241): walk the retained map; every entry whose name
is absent from the fresh map emits `PORT_DISCONNECT` (with the retained index)
and is erased. -/
def deletePass (dir : PortDir) (fresh : List (String × Int)) :
    List (String × Int) → List PortEvent × List (String × Int)
  | [] => ([], [])
  | (k, v) :: rest =>
    let (evs, m) := deletePass dir fresh rest
    if portMapContains fresh k then (evs, (k, v) :: m)
    else (⟨k, dir, .disconnect, v⟩ :: evs, m)

/-- FIND pass (lines 247–300): walk the fresh map; every entry whose name is
absent from the retained map emits `PORT_CONNECT` (with the fresh index) and is
inserted into the retained map. -/
def addPass (dir : PortDir) : List (String × Int) → List (String × Int) →
    List PortEvent × List (String × Int)
  | retained, [] => ([], retained)
  | retained, (k, v) :: rest =>
    if portMapContains retained k then addPass dir retained rest
    else
      let (evs, m) := addPass dir (portMapInsert retained k v) rest
      (⟨k, dir, .connect, v⟩ :: evs, m)

/-- FIND CHANGED pass (lines 306–357): walk the retained map; for every entry
whose fresh index (`value`, default 0) differs, store the new index and emit
`PORT_CHANGED` with it. -/
def changePass (dir : PortDir) (fresh : List (String × Int)) :
    List (String × Int) → List PortEvent × List (String × Int)
  | [] => ([], [])
  | (k, v) :: rest =>
    let (evs, m) := changePass dir fresh rest
    let updatedPort := portMapValue fresh k
    if updatedPort != v then (⟨k, dir, .changed, updatedPort⟩ :: evs, (k, updatedPort) :: m)
    else (evs, (k, v) :: m)

/-- The two retained maps of a `KMI_Ports` instance. -/
structure PortsState where
  midiInputPorts : List (String × Int)
  midiOutputPorts : List (String × Int)
deriving DecidableEq, Repr

/-- `KMI_Ports::checkPortsForChanges` (lines 140–359): build the fresh maps
from the current enumerations, then run DELETE INPUTS, DELETE OUTPUTS, FIND
INPUTS, FIND OUTPUTS, FIND CHANGED INPUTS, FIND CHANGED OUTPUTS — in that
order.  Returns the emitted events in order, the updated retained maps, and
`returnValue` (incremented once per emission). -/
def checkPortsForChanges (s : PortsState) (inNames outNames : List String) :
    List PortEvent × PortsState × Nat :=
  let newInputPortMap := buildPortMap inNames
  let newOutputPortMap := buildPortMap outNames
  let del1 := deletePass .input newInputPortMap s.midiInputPorts
  let del2 := deletePass .output newOutputPortMap s.midiOutputPorts
  let add1 := addPass .input del1.2 newInputPortMap
  let add2 := addPass .output del2.2 newOutputPortMap
  let chg1 := changePass .input newInputPortMap add1.2
  let chg2 := changePass .output newOutputPortMap add2.2
  let evs := del1.1 ++ del2.1 ++ add1.1 ++ add2.1 ++ chg1.1 ++ chg2.1
  (evs, ⟨chg1.2, chg2.2⟩, evs.length)

end KMI_Ports

namespace MidiDeviceManager

/-! ## Firmware-update state machine (`src/KMI_mdm.cpp`, `slotPollVersion`)

The `switch (firmwareUpdateState)` of `MidiDeviceManager::slotPollVersion`
(lines 638–922), embedded as a step function over the fields the switch reads
and writes.  The identity-request block that follows the switch (lines
924–986) never touches `firmwareUpdateState` and is outside the claims, so the
step function covers the function's state-machine part.  The `#ifdef
Q_OS_WINDOWS` block inside `FWUD_STATE_BL_MODE` is omitted (non-Windows
build). -/

/-- The `FWUD_STATE_*` enum of `KMI_mdm.h` (values 0–12 in this order). -/
inductive FwUpdateState where
  | FWUD_STATE_IDLE
  | FWUD_STATE_BEGIN
  | FWUD_STATE_GLOBALS_REQ_SEND
  | FWUD_STATE_GLOBALS_REQ_SENT_WAIT
  | FWUD_STATE_GLOBALS_RCVD
  | FWUD_STATE_BL_SEND
  | FWUD_STATE_BL_SENT_WAIT
  | FWUD_STATE_BL_MODE
  | FWUD_STATE_FW_SEND
  | FWUD_STATE_FW_SENT_WAIT
  | FWUD_STATE_GLOBALS_SEND
  | FWUD_STATE_SUCCESS
  | FWUD_STATE_FAIL
deriving DecidableEq, Repr

/-- The numeric value of each `FWUD_STATE_*` enumerator (the C `switch` and
the comparison `firmwareUpdateState > FWUD_STATE_BEGIN` use the `int`
values). -/
def FwUpdateState.code : FwUpdateState → Nat
  | .FWUD_STATE_IDLE => 0
  | .FWUD_STATE_BEGIN => 1
  | .FWUD_STATE_GLOBALS_REQ_SEND => 2
  | .FWUD_STATE_GLOBALS_REQ_SENT_WAIT => 3
  | .FWUD_STATE_GLOBALS_RCVD => 4
  | .FWUD_STATE_BL_SEND => 5
  | .FWUD_STATE_BL_SENT_WAIT => 6
  | .FWUD_STATE_BL_MODE => 7
  | .FWUD_STATE_FW_SEND => 8
  | .FWUD_STATE_FW_SENT_WAIT => 9
  | .FWUD_STATE_GLOBALS_SEND => 10
  | .FWUD_STATE_SUCCESS => 11
  | .FWUD_STATE_FAIL => 12

/-- Modelled from the spec and usage: the `BL_INSTALL_*` enum is declared in a
header that is not part of `src/` (only its four enumerators appear in
`KMI_mdm.cpp`); the state machine only compares for (in)equality, so the
numeric values are immaterial. -/
inductive BlInstall where
  | BL_INSTALL_FALSE
  | BL_INSTALL_PENDING
  | BL_INSTALL_DEVICE_DISCONNECTED
  | BL_INSTALL_COMPLETE
deriving DecidableEq, Repr

/-- Product ids from `KMI_DevData.h` used by the `FWUD_STATE_BL_SEND` case. -/
def PID_SOFTSTEP1 : Nat := 10
def PID_SOFTSTEP2 : Nat := 11
def PID_SOFTSTEP3 : Nat := 13
def PID_12STEP1 : Nat := 20
def PID_12STEP2 : Nat := 22
def PID_QUNEXUS : Nat := 25
def PID_QUNEO : Nat := 30

def FW_UPDATE_TIMEOUT_INTERVAL : Int := 35000

/-- The signal emissions and calls performed by the switch, in order.
Console messages are tagged by constructor rather than by their full `QString`
text. -/
inductive PollAction where
  | consoleTimeoutIn (remainingSeconds : Int)
  | requestGlobals
  | fwProgress (percent : Nat)
  | consoleBackingUpGlobals
  | consoleGlobalsSkip
  | consoleGlobalsSaved
  | consoleInstallingBootloader
  | consoleEnterBootloader
  | consoleBootloaderDetected
  | consoleDeviceNotConnected
  | consoleUpdatingFirmware
  | consoleFirmwareFileMissing
  | consoleRestoringGlobals
  | consoleUpdateComplete
  | sendSysExBootloaderImage
  | sendSysExEnterBootloader
  | sendSysExIdRequest
  | sendSysExFirmwareImage
  | firmwareUpdateComplete (ok : Bool)
  | restoreGlobals
  | msleepMs (ms : Nat)
deriving DecidableEq, Repr

/-- The `MidiDeviceManager` fields read or written by the switch.  `elapsed`
is the value `firmwareUpdateStateTimer.elapsed()` would return at entry (ms);
a `restart()` sets it to 0 in the returned state. -/
structure PollState where
  firmwareUpdateState : FwUpdateState
  elapsed : Int
  packetSize : Nat
  installingBootloader : BlInstall
  bootloaderMode : Bool
  fwSaveRestoreGlobals : Bool
  PID : Nat
  deviceFirmwareVersion : List Nat
  port_out_open : Bool
  firmwareByteArrayLength : Nat
  fwVerPollSkipConnectCycles : Nat
  pollingStatus : Bool
  connected : Bool
deriving DecidableEq, Repr

/-- The `FWUD_STATE_BL_SEND` case body (lines 714–783). -/
def blSendCase (s : PollState) : PollState × List PollAction :=
  let dfv0 := s.deviceFirmwareVersion.getD 0 0
  let dfv1 := s.deviceFirmwareVersion.getD 1 0
  let (s1, acts1) :=
    if s.PID == PID_12STEP1 || s.PID == PID_12STEP2 || s.PID == PID_SOFTSTEP1 ||
       s.PID == PID_SOFTSTEP2 || s.PID == PID_SOFTSTEP3 then
      if dfv0 < 1 then  -- pre-bootloader firmware
        if (dfv0 == 9 && dfv1 < 8) || dfv0 < 9 then
          ({ s with installingBootloader := .BL_INSTALL_PENDING, fwVerPollSkipConnectCycles := 1 },
           [.consoleInstallingBootloader, .msleepMs 1000, .sendSysExBootloaderImage])
        else (s, [])
      else
        ({ s with installingBootloader := .BL_INSTALL_FALSE },
         [.consoleEnterBootloader] ++
         (if s.PID == PID_SOFTSTEP1 || s.PID == PID_SOFTSTEP2 || s.PID == PID_SOFTSTEP3 then
            [.sendSysExEnterBootloader]
          else if s.PID == PID_12STEP1 || s.PID == PID_12STEP2 then
            [.sendSysExEnterBootloader]
          else []))
    else if s.PID == PID_QUNEXUS then (s, [.sendSysExEnterBootloader])
    else if s.PID == PID_QUNEO then (s, [.sendSysExEnterBootloader])
    else (s, [])  -- "Bootloader command not configured for this device"
  let (s2, acts2) :=
    if s1.PID != PID_SOFTSTEP1 && s1.PID != PID_SOFTSTEP2 &&
       s1.PID != PID_12STEP1 && s1.PID != PID_12STEP2 then
      ({ s1 with installingBootloader := .BL_INSTALL_FALSE }, [.consoleEnterBootloader])
    else (s1, [])
  ({ s2 with firmwareUpdateState := .FWUD_STATE_BL_SENT_WAIT, elapsed := 0 },
   acts1 ++ acts2 ++ [.fwProgress 30])

/-- `MidiDeviceManager::slotPollVersion`, state-machine part (lines 638–922):
compute `remainingSeconds = (35000 - elapsed) / 1000` (C integer division),
restart the state timer if the outgoing buffer is non-empty, emit the
"Timeout in …" console line when past `FWUD_STATE_BEGIN` with under 10 s of
margin left, then run the `switch (firmwareUpdateState)`. -/
def slotPollVersion (s : PollState) : PollState × List PollAction :=
  let remainingSeconds : Int := Int.tdiv (FW_UPDATE_TIMEOUT_INTERVAL - s.elapsed) 1000
  let s := if s.packetSize > 0 then { s with elapsed := 0 } else s
  let timeoutActs : List PollAction :=
    if s.firmwareUpdateState.code > FwUpdateState.code .FWUD_STATE_BEGIN &&
       s.elapsed > FW_UPDATE_TIMEOUT_INTERVAL - 10000 &&
       s.installingBootloader != .BL_INSTALL_COMPLETE && remainingSeconds > 0 then
      [.consoleTimeoutIn remainingSeconds]
    else []
  let (s2, acts) :=
    match s.firmwareUpdateState with
    | .FWUD_STATE_IDLE => (s, [])
    | .FWUD_STATE_BEGIN =>
      let next : FwUpdateState :=
        if s.bootloaderMode then .FWUD_STATE_BL_MODE
        else if s.fwSaveRestoreGlobals then .FWUD_STATE_GLOBALS_REQ_SEND
        else .FWUD_STATE_BL_SEND
      let s1 := { s with installingBootloader := BlInstall.BL_INSTALL_FALSE, firmwareUpdateState := next }
      ({ s1 with fwVerPollSkipConnectCycles := 0, elapsed := 0 }, [])
    | .FWUD_STATE_GLOBALS_REQ_SEND =>
      ({ s with firmwareUpdateState := .FWUD_STATE_GLOBALS_REQ_SENT_WAIT, elapsed := 0 },
       [.requestGlobals, .fwProgress 10, .consoleBackingUpGlobals])
    | .FWUD_STATE_GLOBALS_REQ_SENT_WAIT =>
      if remainingSeconds == 25 then (s, [.requestGlobals])
      else if remainingSeconds < 15 then
        ({ s with firmwareUpdateState := .FWUD_STATE_BL_SEND }, [.consoleGlobalsSkip])
      else (s, [])
    | .FWUD_STATE_GLOBALS_RCVD =>
      let s1 := { s with pollingStatus := false, firmwareUpdateState := FwUpdateState.FWUD_STATE_BL_SEND }
      ({ s1 with elapsed := 0 }, [.consoleGlobalsSaved, .fwProgress 20])
    | .FWUD_STATE_BL_SEND => blSendCase s
    | .FWUD_STATE_BL_SENT_WAIT =>
      let re := if remainingSeconds == 22 || remainingSeconds == 12 || remainingSeconds == 5 then
                  [PollAction.sendSysExIdRequest]
                else []
      if s.elapsed > FW_UPDATE_TIMEOUT_INTERVAL then
        ({ s with firmwareUpdateState := .FWUD_STATE_FAIL }, re)
      else (s, re)
    | .FWUD_STATE_BL_MODE =>
      ({ s with firmwareUpdateState := .FWUD_STATE_FW_SEND, fwVerPollSkipConnectCycles := 0 },
       [.consoleBootloaderDetected, .fwProgress 40])
    | .FWUD_STATE_FW_SEND =>
      let (sA, actsA) :=
        if s.port_out_open == false then
          ({ s with firmwareUpdateState := .FWUD_STATE_FAIL }, [PollAction.consoleDeviceNotConnected])
        else (s, [])
      let actsB := actsA ++ [.consoleUpdatingFirmware, .fwProgress 50]
      if sA.firmwareByteArrayLength < 1 then
        ({ sA with firmwareUpdateState := .FWUD_STATE_FAIL, elapsed := 0 },
         actsB ++ [.consoleFirmwareFileMissing])
      else
        ({ sA with firmwareUpdateState := .FWUD_STATE_FW_SENT_WAIT, elapsed := 0 },
         actsB ++ [.sendSysExFirmwareImage])
    | .FWUD_STATE_FW_SENT_WAIT =>
      let re := if remainingSeconds == 22 || remainingSeconds == 12 || remainingSeconds == 5 then
                  [PollAction.sendSysExIdRequest]
                else []
      if s.elapsed > FW_UPDATE_TIMEOUT_INTERVAL then
        ({ s with firmwareUpdateState := .FWUD_STATE_FAIL }, re)
      else (s, re)
    | .FWUD_STATE_GLOBALS_SEND =>
      ({ s with firmwareUpdateState := .FWUD_STATE_SUCCESS, elapsed := 0 },
       [.restoreGlobals, .fwProgress 90, .consoleRestoringGlobals])
    | .FWUD_STATE_SUCCESS =>
      let s1 := { s with firmwareUpdateState := FwUpdateState.FWUD_STATE_IDLE, connected := true }
      ({ s1 with fwVerPollSkipConnectCycles := 0 }, [.firmwareUpdateComplete true, .consoleUpdateComplete])
    | .FWUD_STATE_FAIL =>
      -- slotFirmwareUpdateReset() sets pollingStatus = false
      let s1 := { s with pollingStatus := false, connected := false }
      ({ s1 with firmwareUpdateState := FwUpdateState.FWUD_STATE_IDLE, fwVerPollSkipConnectCycles := 0 },
       [.firmwareUpdateComplete false])
  (s2, timeoutActs ++ acts)

/-! ## Channel-message parser and NRPN/RPN assembler (`slotParsePacket`)

`MidiDeviceManager::slotParsePacket` (KMI_mdm.cpp lines 1718–1926).  The
parser's running-status latch is declared inside the function as
`static unsigned char status, chan;` — a **function-local static**: C++ gives
it one zero-initialized copy for the whole process, shared by every
`MidiDeviceManager` instance that executes the function.  It is therefore
embedded as a `RunningStatus` value threaded separately from the per-instance
`ParamState` members, and the two-session model below shares one
`RunningStatus` between both sessions. -/

/-- The `PARAM_MODE` enum of `KMI_mdm.h`. -/
inductive PARAM_MODE where
  | MODE_UNDEF
  | MODE_RPN
  | MODE_NRPN
deriving DecidableEq, Repr

/-- MIDI status/CC constants from `midi.h` used by the parser. -/
def MIDI_NOTE_OFF : Nat := 0x80
def MIDI_NOTE_ON : Nat := 0x90
def MIDI_NOTE_AFTERTOUCH : Nat := 0xA0
def MIDI_CONTROL_CHANGE : Nat := 0xB0
def MIDI_PROG_CHANGE : Nat := 0xC0
def MIDI_CHANNEL_PRESSURE : Nat := 0xD0
def MIDI_PITCH_BEND : Nat := 0xE0
def MIDI_MTC : Nat := 0xF1
def MIDI_SONG_POSITION : Nat := 0xF2
def MIDI_SONG_SELECT : Nat := 0xF3
def MIDI_TUNE_REQUEST : Nat := 0xF6
def MIDI_RT_CLOCK : Nat := 0xF8
def MIDI_RT_START : Nat := 0xFA
def MIDI_RT_CONTINUE : Nat := 0xFB
def MIDI_RT_STOP : Nat := 0xFC
def MIDI_RT_ACTIVE_SENSE : Nat := 0xFE
def MIDI_RT_RESET : Nat := 0xFF
def MIDI_CC_DATA_MSB : Nat := 6
def MIDI_CC_DATA_LSB : Nat := 38
def MIDI_CC_DATA_INC : Nat := 96
def MIDI_CC_DATA_DEC : Nat := 97
def MIDI_CC_NRPN_LSB : Nat := 98
def MIDI_CC_NRPN_MSB : Nat := 99
def MIDI_CC_RPN_LSB : Nat := 100
def MIDI_CC_RPN_MSB : Nat := 101

/-- The signals `slotParsePacket` emits. -/
inductive RxEvent where
  | raw (status d1 d2 chan : Nat)
  | noteOff (chan note velocity : Nat)
  | noteOn (chan note velocity : Nat)
  | polyAT (chan note val : Nat)
  | controlChange (chan cc val : Nat)
  | rpn (chan param val : Nat)
  | nrpn (chan param val : Nat)
  | progChange (chan val : Nat)
  | aftertouch (chan val : Nat)
  | pitchBend (chan val : Nat)
  | mtc (d1 d2 : Nat)
  | songPosition (lsb msb : Nat)
  | songSelect (song : Nat)
  | tuneReq
  | clock
  | rtStart
  | rtContinue
  | rtStop
  | actSense
  | sysReset
deriving DecidableEq, Repr

/-- The function-local `static unsigned char status, chan;` of
`slotParsePacket` — one process-wide copy, zero-initialized. -/
structure RunningStatus where
  status : Nat
  chan : Nat
deriving DecidableEq, Repr

def initialRunningStatus : RunningStatus := ⟨0, 0⟩

/-- Pointwise update of a modelled C array (`a[i] = v`). -/
def upd (f : Nat → Nat) (i v : Nat) : Nat → Nat :=
  fun j => if j == i then v else f j

/-- The per-instance NRPN/RPN members of `MidiDeviceManager` (KMI_mdm.h lines
162–178).  Each `uchar X[16]` array is a function from channel to value;
`paramMode` is the single `PARAM_MODE paramMode = MODE_UNDEF;` member — one
value per instance, **not** per channel. -/
structure ParamState where
  RPN_MSB : Nat → Nat
  RPN_LSB : Nat → Nat
  NRPN_MSB : Nat → Nat
  NRPN_LSB : Nat → Nat
  RPN_DATA_MSB : Nat → Nat
  RPN_DATA_LSB : Nat → Nat
  NRPN_DATA_MSB : Nat → Nat
  NRPN_DATA_LSB : Nat → Nat
  LAST_SENT_RPN : Nat → Nat
  LAST_SENT_NRPN : Nat → Nat
  paramMode : PARAM_MODE

/-- The member initializers of `KMI_mdm.h`: every array cell 0,
`paramMode = MODE_UNDEF` (the `LAST_SENT_*` arrays have no initializer there;
0 stands in for their indeterminate value — they are set by `slotInitNRPN`
before use). -/
def constructedParamState : ParamState :=
  { RPN_MSB := fun _ => 0, RPN_LSB := fun _ => 0, NRPN_MSB := fun _ => 0,
    NRPN_LSB := fun _ => 0, RPN_DATA_MSB := fun _ => 0, RPN_DATA_LSB := fun _ => 0,
    NRPN_DATA_MSB := fun _ => 0, NRPN_DATA_LSB := fun _ => 0,
    LAST_SENT_RPN := fun _ => 0, LAST_SENT_NRPN := fun _ => 0, paramMode := .MODE_UNDEF }

/-- `MidiDeviceManager::slotInitNRPN` (lines 1671–1686): for every channel set
the four address bytes to 255, `RPN_DATA_MSB/LSB` and `NRPN_DATA_MSB` to 0,
and `LAST_SENT_NRPN` to 16384.  (`NRPN_DATA_LSB` and `LAST_SENT_RPN` are *not*
touched, and `paramMode` is left as it is.) -/
def slotInitNRPN (s : ParamState) : ParamState :=
  { s with
    RPN_MSB := fun _ => 255, RPN_LSB := fun _ => 255, NRPN_MSB := fun _ => 255,
    NRPN_LSB := fun _ => 255, RPN_DATA_MSB := fun _ => 0, RPN_DATA_LSB := fun _ => 0,
    NRPN_DATA_MSB := fun _ => 0, LAST_SENT_NRPN := fun _ => 16384 }

/-- The reset parameter state: a freshly constructed session after
`slotInitNRPN`. -/
def resetParamState : ParamState := slotInitNRPN constructedParamState

/-- The `case MIDI_CONTROL_CHANGE` body (lines 1762–1879): emit the CC signal
for every control change, then run the NRPN/RPN assembler switch on the CC
number.  `chan` indexes the per-channel arrays, but the addressing mode test
and assignment use the single shared `paramMode` member. -/
def controlChangeCase (st : ParamState) (chan cc val : Nat) : ParamState × List RxEvent :=
  let ccEv := [RxEvent.controlChange chan cc val]
  if cc == MIDI_CC_RPN_LSB then
    ({ st with RPN_LSB := upd st.RPN_LSB chan val, paramMode := .MODE_RPN }, ccEv)
  else if cc == MIDI_CC_RPN_MSB then
    ({ st with RPN_MSB := upd st.RPN_MSB chan val, paramMode := .MODE_RPN }, ccEv)
  else if cc == MIDI_CC_NRPN_LSB then
    ({ st with NRPN_LSB := upd st.NRPN_LSB chan val, paramMode := .MODE_NRPN }, ccEv)
  else if cc == MIDI_CC_NRPN_MSB then
    ({ st with NRPN_MSB := upd st.NRPN_MSB chan val, paramMode := .MODE_NRPN }, ccEv)
  else if cc == MIDI_CC_DATA_MSB then
    if st.paramMode == .MODE_RPN then
      ({ st with RPN_DATA_MSB := upd st.RPN_DATA_MSB chan val }, ccEv)
    else if st.paramMode == .MODE_NRPN then
      ({ st with NRPN_DATA_MSB := upd st.NRPN_DATA_MSB chan val }, ccEv)
    else (st, ccEv)
  else if cc == MIDI_CC_DATA_LSB then
    if st.paramMode == .MODE_RPN then
      let st := { st with RPN_DATA_LSB := upd st.RPN_DATA_LSB chan val }
      (st, ccEv ++ [.rpn chan ((st.RPN_MSB chan <<< 7) ||| st.RPN_LSB chan)
                      ((st.RPN_DATA_MSB chan <<< 7) ||| st.RPN_DATA_LSB chan)])
    else if st.paramMode == .MODE_NRPN then
      let st := { st with NRPN_DATA_LSB := upd st.NRPN_DATA_LSB chan val }
      (st, ccEv ++ [.nrpn chan ((st.NRPN_MSB chan <<< 7) ||| st.NRPN_LSB chan)
                      ((st.NRPN_DATA_MSB chan <<< 7) ||| st.NRPN_DATA_LSB chan)])
    else (st, ccEv)
  else if cc == MIDI_CC_DATA_INC then
    if st.paramMode == .MODE_RPN && st.RPN_DATA_LSB chan < 0xFF then
      let st := { st with RPN_DATA_LSB := upd st.RPN_DATA_LSB chan (st.RPN_DATA_LSB chan + 1) }
      (st, ccEv ++ [.rpn chan ((st.RPN_MSB chan <<< 7) ||| st.RPN_LSB chan)
                      ((st.RPN_DATA_MSB chan <<< 7) ||| st.RPN_DATA_LSB chan)])
    else if st.paramMode == .MODE_NRPN && st.NRPN_DATA_LSB chan < 0xFF then
      let st := { st with NRPN_DATA_LSB := upd st.NRPN_DATA_LSB chan (st.NRPN_DATA_LSB chan + 1) }
      (st, ccEv ++ [.nrpn chan ((st.NRPN_MSB chan <<< 7) ||| st.NRPN_LSB chan)
                      ((st.NRPN_DATA_MSB chan <<< 7) ||| st.NRPN_DATA_LSB chan)])
    else (st, ccEv)
  else if cc == MIDI_CC_DATA_DEC then
    if st.paramMode == .MODE_RPN && st.RPN_DATA_LSB chan > 0 then
      let st := { st with RPN_DATA_LSB := upd st.RPN_DATA_LSB chan (st.RPN_DATA_LSB chan - 1) }
      (st, ccEv ++ [.rpn chan ((st.RPN_MSB chan <<< 7) ||| st.RPN_LSB chan)
                      ((st.RPN_DATA_MSB chan <<< 7) ||| st.RPN_DATA_LSB chan)])
    else if st.paramMode == .MODE_NRPN && st.NRPN_DATA_LSB chan > 0 then
      let st := { st with NRPN_DATA_LSB := upd st.NRPN_DATA_LSB chan (st.NRPN_DATA_LSB chan - 1) }
      (st, ccEv ++ [.nrpn chan ((st.NRPN_MSB chan <<< 7) ||| st.NRPN_LSB chan)
                      ((st.NRPN_DATA_MSB chan <<< 7) ||| st.NRPN_DATA_LSB chan)])
    else (st, ccEv)
  else (st, ccEv)

/-- `MidiDeviceManager::slotParsePacket`.  A first byte above 127 latches
status and channel into the shared static and reads `d1`/`d2` with length
checks; a first byte of 127 or less is a running-status continuation that
keeps the latched status/chan and reads `d1`/`d2` from bytes 0 and 1 (the C
code indexes `packetArray[0]`/`packetArray[1]` there without a length check;
out-of-range `QByteArray` reads are modelled as 0).  A raw event is always
emitted, then the status switch dispatches.  (The system-common cases
`0xF1`–`0xFF` are embedded as in the source even though `status` is always
`byte & 0xF0` there, so they cannot match.) -/
def slotParsePacket (rs : RunningStatus) (st : ParamState) (packetArray : List Nat) :
    RunningStatus × ParamState × List RxEvent :=
  let b0 := packetArray.getD 0 0 &&& 0xFF
  let (rs, data1, data2) :=
    if b0 > 127 then
      (⟨b0 &&& 0xF0, b0 &&& 0x0F⟩,
       (if packetArray.length > 1 then packetArray.getD 1 0 &&& 0xFF else 0),
       (if packetArray.length > 2 then packetArray.getD 2 0 &&& 0xFF else 0))
    else
      (rs, b0, packetArray.getD 1 0 &&& 0xFF)
  let status := rs.status
  let chan := rs.chan
  let rawEv := [RxEvent.raw status data1 data2 chan]
  if status == MIDI_NOTE_OFF then (rs, st, rawEv ++ [.noteOff chan data1 data2])
  else if status == MIDI_NOTE_ON then (rs, st, rawEv ++ [.noteOn chan data1 data2])
  else if status == MIDI_NOTE_AFTERTOUCH then (rs, st, rawEv ++ [.polyAT chan data1 data2])
  else if status == MIDI_CONTROL_CHANGE then
    let (st2, evs) := controlChangeCase st chan data1 data2
    (rs, st2, rawEv ++ evs)
  else if status == MIDI_PROG_CHANGE then (rs, st, rawEv ++ [.progChange chan data1])
  else if status == MIDI_CHANNEL_PRESSURE then (rs, st, rawEv ++ [.aftertouch chan data1])
  else if status == MIDI_PITCH_BEND then
    (rs, st, rawEv ++ [.pitchBend chan ((data1 <<< 7) ||| data2)])
  else if status == MIDI_MTC then (rs, st, rawEv ++ [.mtc data1 data2])
  else if status == MIDI_SONG_POSITION then (rs, st, rawEv ++ [.songPosition data1 data2])
  else if status == MIDI_SONG_SELECT then (rs, st, rawEv ++ [.songSelect data1])
  else if status == MIDI_TUNE_REQUEST then (rs, st, rawEv ++ [.tuneReq])
  else if status == MIDI_RT_CLOCK then (rs, st, rawEv ++ [.clock])
  else if status == MIDI_RT_START then (rs, st, rawEv ++ [.rtStart])
  else if status == MIDI_RT_CONTINUE then (rs, st, rawEv ++ [.rtContinue])
  else if status == MIDI_RT_STOP then (rs, st, rawEv ++ [.rtStop])
  else if status == MIDI_RT_ACTIVE_SENSE then (rs, st, rawEv ++ [.actSense])
  else if status == MIDI_RT_RESET then (rs, st, rawEv ++ [.sysReset])
  else (rs, st, rawEv)

/-- Parse a sequence of received packets through one session, accumulating the
emitted events. -/
def parseAll : RunningStatus → ParamState → List (List Nat) →
    RunningStatus × ParamState × List RxEvent
  | rs, st, [] => (rs, st, [])
  | rs, st, p :: rest =>
    let (rs1, st1, evs) := slotParsePacket rs st p
    let (rs2, st2, evs2) := parseAll rs1 st1 rest
    (rs2, st2, evs ++ evs2)

/-- Two `MidiDeviceManager` instances (sessions X and Y).  Because the
running-status latch is a function-local static, the two sessions share the
single `RunningStatus`; each has its own `ParamState` members. -/
structure TwoSessions where
  sharedRunningStatus : RunningStatus
  sessionX : ParamState
  sessionY : ParamState

/-- Session X parses one received packet. -/
def parseInX (w : TwoSessions) (p : List Nat) : TwoSessions × List RxEvent :=
  let (rs, st, evs) := slotParsePacket w.sharedRunningStatus w.sessionX p
  ({ w with sharedRunningStatus := rs, sessionX := st }, evs)

/-- Session Y parses one received packet. -/
def parseInY (w : TwoSessions) (p : List Nat) : TwoSessions × List RxEvent :=
  let (rs, st, evs) := slotParsePacket w.sharedRunningStatus w.sessionY p
  ({ w with sharedRunningStatus := rs, sessionY := st }, evs)

/-- A fresh two-session world: static latch zero-initialized, both sessions
reset. -/
def initialTwoSessions : TwoSessions :=
  ⟨initialRunningStatus, resetParamState, resetParamState⟩

/-- Is an event an NRPN emission (`signalRxMidi_NRPN`)? -/
def RxEvent.isNrpn : RxEvent → Bool
  | .nrpn _ _ _ => true
  | _ => false

/-- Is an event an RPN emission (`signalRxMidi_RPN`)? -/
def RxEvent.isRpn : RxEvent → Bool
  | .rpn _ _ _ => true
  | _ => false

/-! ## Outgoing-buffer drain (`slotEmptyMIDIBuffer`)

`MidiDeviceManager::slotEmptyMIDIBuffer` (lines 1491–1669).  The constant
`MAX_MIDI_SYSEX_SIZE` is defined in a header that is not under `src/`, so the
drain takes it as a parameter; every theorem below holds for every value of
it.  `RtMidi` send errors are external and not modelled (sends succeed). -/

inductive DrainAction where
  | sendMessage (bytes : List Nat)
  | logBufferOverflow
deriving DecidableEq, Repr

/-- The fields `slotEmptyMIDIBuffer` reads and writes: the outgoing buffer
`packet`, the function-local static `sendLastChunk`, the chunk-rate timer
reading (ms since last chunk) and the chunk parameters.  A timer `restart()`
sets `chunkElapsed` to 0 in the returned state. -/
structure BufferState where
  packet : List Nat
  sendLastChunk : Bool
  chunkElapsed : Int
  sysExTxChunkSize : Nat
  sysExTxChunkDelay : Int
deriving DecidableEq, Repr

/-- The inner `while (!stopSearch)` scan of a small SysEx (lines 1580–1593):
collect bytes from `i` until the byte after the cursor is `0xF7`, the end of
the buffer, or a status byte (which rewinds the cursor by one).  Out-of-range
`packet[i]` reads (possible in the C code) are modelled as 0.  Fuel is
`packet.length + 2`, enough since every iteration advances the cursor. -/
def smallSysexScan : Nat → List Nat → Nat → List Nat → List Nat × Nat
  | 0, _, i, acc => (acc, i)
  | fuel + 1, packet, i, acc =>
    let acc := acc ++ [packet.getD i 0]
    let i := i + 1
    if packet.getD i 0 == kmiSysEx.MIDI_SX_STOP || i ≥ packet.length then (acc, i)
    else if packet.getD i 0 > 127 then (acc, i - 1)
    else smallSysexScan fuel packet i acc

/-- The `else` branch of the drain (lines 1570–1664): walk the buffer byte by
byte; a `0xF0` starts a small-SysEx scan which is sent terminated with `0xF7`;
a status byte flushes the channel message under construction; the final byte
flushes the remainder.  Fuel `packet.length + 1` covers the `for` loop, whose
index advances every iteration. -/
def smallSendLoop : Nat → List Nat → Nat → List Nat → List DrainAction → List DrainAction
  | 0, _, _, _, acts => acts
  | fuel + 1, packet, i, message, acts =>
    if i ≥ packet.length then acts
    else
      let b := packet.getD i 0
      if b == kmiSysEx.MIDI_SX_START then
        let (sx, i2) := smallSysexScan (packet.length + 2) packet i []
        smallSendLoop fuel packet (i2 + 1) message
          (acts ++ [.sendMessage (sx ++ [kmiSysEx.MIDI_SX_STOP])])
      else
        let (message, acts) :=
          if b ≥ 0x80 && !message.isEmpty then ([], acts ++ [.sendMessage message])
          else (message, acts)
        let message := message ++ [b]
        let acts :=
          if i == packet.length - 1 && !message.isEmpty then acts ++ [.sendMessage message]
          else acts
        smallSendLoop fuel packet (i + 1) message acts

/-- `MidiDeviceManager::slotEmptyMIDIBuffer`: empty buffer → nothing;
buffer larger than `MAX_MIDI_SYSEX_SIZE` → log
"ERROR: SYSEX TX BUFFER OVERFLOW, DISCARDING", clear the whole buffer and
return (nothing is transmitted); otherwise drain in chunks (rate-limited) or
send the individual messages. -/
def slotEmptyMIDIBuffer (MAX_MIDI_SYSEX_SIZE : Nat) (s : BufferState) :
    List DrainAction × BufferState :=
  if s.packet.length == 0 then ([], s)
  else if s.packet.length > MAX_MIDI_SYSEX_SIZE then
    ([.logBufferOverflow], { s with packet := [] })
  else if s.packet.length > s.sysExTxChunkSize || s.sendLastChunk then
    if s.chunkElapsed < s.sysExTxChunkDelay then ([], s)
    else
      let sizeToSend := if s.sendLastChunk then s.packet.length else s.sysExTxChunkSize
      let chunk := s.packet.take sizeToSend
      let chunkToSend :=
        if chunk.length < 6 && !chunk.isEmpty && chunk.getLast? == some kmiSysEx.MIDI_SX_STOP then
          chunk.dropLast ++ List.replicate 10 0 ++ [kmiSysEx.MIDI_SX_STOP]
        else chunk
      let rest := s.packet.drop sizeToSend
      if s.sendLastChunk then
        ([.sendMessage chunkToSend], { s with packet := [], sendLastChunk := false, chunkElapsed := 0 })
      else if rest.length < s.sysExTxChunkSize then
        ([.sendMessage chunkToSend], { s with packet := rest, sendLastChunk := true, chunkElapsed := 0 })
      else
        ([.sendMessage chunkToSend], { s with packet := rest, chunkElapsed := 0 })
  else
    (smallSendLoop (s.packet.length + 1) s.packet 0 [] [], { s with packet := [] })

end MidiDeviceManager

/-! ## Concrete test fixtures

Closed inputs and intermediate states used by the theorems below. -/

namespace kmiSysEx

/-- A payload `[1, 2, …, n]` for the round-trip evaluation. -/
def roundPayload (n : Nat) : List Nat := (List.range n).map (· + 1)

/-- A frame whose declared payload-length word is 1032 — larger than the
1024-byte `payload.data` buffer — with 1032 body bytes, correct preamble CRC
and correct payload-region CRC, so the decoder consumes the whole region. -/
def c5Frame : List Nat := craftKmiFrame kmi_id_3 0x19 0 0 1032 (List.replicate 1032 0)

end kmiSysEx

namespace MidiDeviceManager

/-- A session mid-firmware-update, with an empty outgoing buffer (no reply
pending) and the full 35 s window elapsed. -/
def c2Base : PollState :=
  { firmwareUpdateState := .FWUD_STATE_GLOBALS_REQ_SENT_WAIT, elapsed := 36000, packetSize := 0,
    installingBootloader := .BL_INSTALL_FALSE, bootloaderMode := false,
    fwSaveRestoreGlobals := true, PID := PID_QUNEO, deviceFirmwareVersion := [1, 2, 3],
    port_out_open := true, firmwareByteArrayLength := 10, fwVerPollSkipConnectCycles := 0,
    pollingStatus := true, connected := false }

/-- `c2Base` in `FWUD_STATE_BL_SENT_WAIT`. -/
def c2BaseBl : PollState := { c2Base with firmwareUpdateState := .FWUD_STATE_BL_SENT_WAIT }

/-- The C8 scenario input: CC99=0, CC98=5, CC6=1, CC38=0 on MIDI channel 2
(status byte `0xB2`). -/
def c8Prefix : List (List Nat) := [[0xB2, 99, 0], [0xB2, 98, 5], [0xB2, 6, 1], [0xB2, 38, 0]]

/-- The shared running-status latch after the C8 prefix. -/
def c8Latch : RunningStatus := (parseAll initialRunningStatus resetParamState c8Prefix).1

/-- The parameter state after the C8 prefix (its `NRPN_DATA_LSB` on channel 2
is 0). -/
def c8State : ParamState := (parseAll initialRunningStatus resetParamState c8Prefix).2.1

/-- `n` repetitions of CC97 (decrement) on channel 2 from the post-prefix
state, accumulating emitted events. -/
def c8DecIter : Nat → RunningStatus × ParamState × List RxEvent
  | 0 => (c8Latch, c8State, [])
  | n + 1 =>
    let p := c8DecIter n
    let q := slotParsePacket p.1 p.2.1 [0xB2, 97, 0]
    (q.1, q.2.1, p.2.2 ++ q.2.2)

/-- The C3 counterexample, run A: NRPN address then data, all on channel 0. -/
def c3RunA : List (List Nat) :=
  [[0xB0, 98, 5], [0xB0, 99, 0], [0xB0, 6, 1], [0xB0, 38, 0]]

/-- The C3 counterexample, run B: identical to run A except that an RPN
address (CC101/CC100) arrives on channel **1** between channel 0's address and
data bytes. -/
def c3RunB : List (List Nat) :=
  [[0xB0, 98, 5], [0xB0, 99, 0], [0xB1, 101, 0], [0xB1, 100, 7], [0xB0, 6, 1], [0xB0, 38, 0]]

/-- A pending outgoing buffer of 3 bytes for the C9 witness. -/
def c9Fixture : BufferState :=
  { packet := [0x90, 0x40, 0x7F], sendLastChunk := false, chunkElapsed := 5,
    sysExTxChunkSize := 48, sysExTxChunkDelay := 1 }

end MidiDeviceManager

/-! # Theorems -/

namespace kmiSysEx

/-- **C1.**  The spec claims that for every product id, category, type and
payload of size in {0, 1, 6, 7, 8, 300}, decoding the frame produced by
`slotEncodePacket` succeeds and yields exactly the original product id,
category, type and payload.  Evaluating the code refutes this in every case:

* size 0: the encoder emits no payload section, but the decoder expects
  `length word = 0 + TAIL_LEN = 4` payload bytes plus two CRC bytes, so the
  input ends before anything is emitted;
* sizes 1, 7, 8 (with payloads `[1]`, `[1…7]`, `[1…8]`): the decoder treats
  the encoder's trailing next-packet-length and CRC bytes as payload, then
  compares the CRC against two zero padding bytes, and fails;
* sizes 6 and 300 (payloads `[1…6]`, `[1…300]`): the CRC comparison happens
  to pass, but the emitted packet carries length `n + 4` and the payload plus
  four trailing bytes — not the original payload. -/
theorem C1_roundtrip_broken :
    (slotDecodePacket (slotEncodePacket 0x19 2 5 (roundPayload 0))).outcome = .noPacket ∧
    (slotDecodePacket (slotEncodePacket 0x19 2 5 (roundPayload 1))).outcome = .payloadCrcFail ∧
    (slotDecodePacket (slotEncodePacket 0x19 2 5 (roundPayload 6))).outcome
      = .emitted 0x19 2 5 [1, 2, 3, 4, 5, 6, 0, 0, 0x5F, 0x0D] 10 ∧
    (slotDecodePacket (slotEncodePacket 0x19 2 5 (roundPayload 6))).outcome
      ≠ .emitted 0x19 2 5 (roundPayload 6) 6 ∧
    (slotDecodePacket (slotEncodePacket 0x19 2 5 (roundPayload 7))).outcome = .payloadCrcFail ∧
    (slotDecodePacket (slotEncodePacket 0x19 2 5 (roundPayload 8))).outcome = .payloadCrcFail ∧
    (slotDecodePacket (slotEncodePacket 0x19 2 5 (roundPayload 300))).outcome
      ≠ .emitted 0x19 2 5 (roundPayload 300) 300 := by
  exact ⟨by decide, by decide, by decide, by decide, by decide, by decide, by decide⟩

/-- **C4, counterexample.**  A frame that is byte-for-byte a well-formed KMI
frame except that its third manufacturer-id byte is `0x00` instead of
`kmi_id_3 = 0x5F` is decoded and `signalRxKMIPacket` is emitted for it — the
claim says such a frame is rejected with no event. -/
theorem C4_third_byte_counterexample :
    (craftKmiFrame 0x00 0x19 7 9 1 [0xAA]).getD 3 0 ≠ kmi_id_3 ∧
    (slotDecodePacket (craftKmiFrame 0x00 0x19 7 9 1 [0xAA])).outcome
      = .emitted 0x19 7 9 [0xAA] 1 := by
  exact ⟨by decide, by decide⟩

/-- **C4, amended.**  The decoder validates only the *first two*
manufacturer-id bytes: it requires the first occurrence of the pair
`(kmi_id_1, kmi_id_2)` to be at index 1 (`QByteArray(packetTypeHeader, 2)` —
the declared 3-byte header array is passed with length 2) and rejects
anything else with no event; the third byte is not compared, so frames
differing from the KMI id only there are decoded normally. -/
theorem C4_only_two_id_bytes_validated :
    (∀ l : List Nat, indexOfPair kmi_id_1 kmi_id_2 (l.map (· &&& 0xFF)) ≠ some 1 →
      slotDecodePacket l = ⟨.notKmi, none⟩) ∧
    (slotDecodePacket (craftKmiFrame 0x42 0x19 7 9 1 [0xAA])).outcome
      = .emitted 0x19 7 9 [0xAA] 1 ∧
    (slotDecodePacket (craftKmiFrame kmi_id_3 0x19 7 9 1 [0xAA])).outcome
      = .emitted 0x19 7 9 [0xAA] 1 := by
  refine ⟨fun l h => ?_, by decide, by decide⟩
  unfold slotDecodePacket
  rw [if_pos h]

/-- **C4, witness** for the hypothesis of the rejection part: the empty input
fails the two-byte check and is rejected. -/
theorem C4_only_two_id_bytes_validated_witness :
    indexOfPair kmi_id_1 kmi_id_2 (([] : List Nat).map (· &&& 0xFF)) ≠ some 1 ∧
    slotDecodePacket [] = ⟨.notKmi, none⟩ :=
  ⟨by decide, C4_only_two_id_bytes_validated.1 [] (by decide)⟩

/-- **C5.**  The claim says the decoder never writes payload bytes past the
1024-byte `payload.data` buffer and aborts oversized declared lengths with an
overflow error.  On `c5Frame` — whose declared payload length word is 1032 —
the decoder stores payload bytes at every index up to 1031, i.e. at 8 indices
past the end of the `MAX_SX_BUFFER_SIZE = 1024` buffer (valid indices are
0–1023), and no abort happens: the packet is emitted. -/
theorem C5_out_of_bounds_write :
    (slotDecodePacket c5Frame).maxWriteIndex = some 1031 ∧
    MAX_SX_BUFFER_SIZE ≤ 1031 ∧
    (slotDecodePacket c5Frame).outcome ≠ .payloadOverrun ∧
    (slotDecodePacket c5Frame).outcome ≠ .noPacket := by
  exact ⟨by decide, by decide, by decide, by decide⟩

end kmiSysEx

namespace KMI_Ports

theorem self_mem_portMapInsert (m : List (String × Int)) (k : String) (v : Int) :
    (k, v) ∈ portMapInsert m k v := by
  induction m with
  | nil => simp [portMapInsert]
  | cons hd tl ih =>
    unfold portMapInsert
    by_cases hk : hd.1 == k
    · simp [hk]
    · simp [hk]
      exact Or.inr ih

theorem mem_portMapInsert {e : String × Int} {m : List (String × Int)} {k : String} {v : Int}
    (h : e ∈ portMapInsert m k v) : e = (k, v) ∨ e ∈ m := by
  induction m with
  | nil => simpa [portMapInsert] using h
  | cons hd tl ih =>
    unfold portMapInsert at h
    by_cases hk : hd.1 == k
    · simp [hk] at h
      rcases h with h | h
      · exact Or.inl h
      · exact Or.inr (List.mem_cons_of_mem _ h)
    · simp [hk] at h
      rcases h with h | h
      · exact Or.inr (List.mem_cons.mpr (Or.inl h))
      · rcases ih h with h1 | h1
        · exact Or.inl h1
        · exact Or.inr (List.mem_cons_of_mem _ h1)

theorem mem_portMapInsert_of_ne {e : String × Int} {m : List (String × Int)} {k : String}
    (v : Int) (hm : e ∈ m) (hne : e.1 ≠ k) : e ∈ portMapInsert m k v := by
  induction m with
  | nil => simp at hm
  | cons hd tl ih =>
    unfold portMapInsert
    by_cases hk : hd.1 == k
    · simp [hk]
      rcases List.mem_cons.mp hm with h | h
      · exfalso
        apply hne
        rw [h]
        simpa using hk
      · exact Or.inr h
    · simp [hk]
      rcases List.mem_cons.mp hm with h | h
      · exact Or.inl h
      · exact Or.inr (ih h)

theorem mem_of_contains {m : List (String × Int)} {k : String}
    (h : portMapContains m k = true) : ∃ v, (k, v) ∈ m := by
  simp only [portMapContains, List.any_eq_true] at h
  rcases h with ⟨⟨k1, v⟩, he, hk⟩
  have : k1 = k := by simpa using hk
  subst this
  exact ⟨v, he⟩

theorem contains_of_mem {m : List (String × Int)} {k : String} {v : Int}
    (h : (k, v) ∈ m) : portMapContains m k = true := by
  simp only [portMapContains, List.any_eq_true]
  exact ⟨(k, v), h, by simp⟩

theorem contains_portMapInsert_self (m : List (String × Int)) (k : String) (v : Int) :
    portMapContains (portMapInsert m k v) k = true :=
  contains_of_mem (self_mem_portMapInsert m k v)

theorem contains_portMapInsert_mono {m : List (String × Int)} {k2 : String}
    (k : String) (v : Int) (h : portMapContains m k2 = true) :
    portMapContains (portMapInsert m k v) k2 = true := by
  rcases mem_of_contains h with ⟨v2, hv2⟩
  by_cases hk : k2 = k
  · subst hk
    exact contains_portMapInsert_self m k2 v
  · exact contains_of_mem (mem_portMapInsert_of_ne v hv2 hk)

theorem deletePass_events_change {dir : PortDir} {fresh r : List (String × Int)} :
    ∀ e ∈ (deletePass dir fresh r).1, e.change = .disconnect := by
  induction r with
  | nil => simp [deletePass]
  | cons hd tl ih =>
    intro e he
    unfold deletePass at he
    by_cases hc : portMapContains fresh hd.1
    · simp [hc] at he
      exact ih e he
    · simp [hc] at he
      rcases he with he | he
      · simp [he]
      · exact ih e he

theorem mem_deletePass {dir : PortDir} {fresh r : List (String × Int)} {e : String × Int}
    (h : e ∈ (deletePass dir fresh r).2) :
    e ∈ r ∧ portMapContains fresh e.1 = true := by
  induction r with
  | nil => simp [deletePass] at h
  | cons hd tl ih =>
    unfold deletePass at h
    by_cases hc : portMapContains fresh hd.1
    · simp [hc] at h
      rcases h with h | h
      · subst h; exact ⟨List.mem_cons_self _ _, hc⟩
      · exact ⟨List.mem_cons_of_mem _ (ih h).1, (ih h).2⟩
    · simp [hc] at h
      exact ⟨List.mem_cons_of_mem _ (ih h).1, (ih h).2⟩

theorem deletePass_no_deletions {dir : PortDir} {fresh r : List (String × Int)}
    (h : ∀ e ∈ r, portMapContains fresh e.1 = true) :
    deletePass dir fresh r = ([], r) := by
  induction r with
  | nil => simp [deletePass]
  | cons hd tl ih =>
    have hhd := h hd (List.mem_cons_self _ _)
    have htl := ih (fun e he => h e (List.mem_cons_of_mem _ he))
    unfold deletePass
    simp [htl, hhd]

theorem addPass_events_change {dir : PortDir} :
    ∀ (l r : List (String × Int)), ∀ e ∈ (addPass dir r l).1, e.change = .connect := by
  intro l
  induction l with
  | nil => intro r e he; simp [addPass] at he
  | cons hd tl ih =>
    intro r e he
    unfold addPass at he
    by_cases hc : portMapContains r hd.1
    · simp [hc] at he
      exact ih r e he
    · simp [hc] at he
      rcases he with he | he
      · simp [he]
      · exact ih _ e he

theorem contains_addPass_mono {dir : PortDir} {k : String} :
    ∀ (l r : List (String × Int)), portMapContains r k = true →
      portMapContains (addPass dir r l).2 k = true := by
  intro l
  induction l with
  | nil => intro r h; simpa [addPass] using h
  | cons hd tl ih =>
    intro r h
    unfold addPass
    by_cases hc : portMapContains r hd.1
    · simp [hc]
      exact ih r h
    · simp [hc]
      exact ih _ (contains_portMapInsert_mono hd.1 hd.2 h)

theorem contains_addPass_of_mem {dir : PortDir} {k : String} {v : Int} :
    ∀ (l r : List (String × Int)), (k, v) ∈ l →
      portMapContains (addPass dir r l).2 k = true := by
  intro l
  induction l with
  | nil => intro r h; simp at h
  | cons hd tl ih =>
    intro r h
    unfold addPass
    rcases List.mem_cons.mp h with h1 | h1
    · by_cases hc : portMapContains r hd.1
      · simp [hc]
        have : portMapContains r k = true := by rw [← h1] at hc; exact hc
        exact contains_addPass_mono tl r this
      · simp [hc]
        have : portMapContains (portMapInsert r hd.1 hd.2) k = true := by
          rw [← h1]
          exact contains_portMapInsert_self r k v
        exact contains_addPass_mono tl _ this
    · by_cases hc : portMapContains r hd.1
      · simp [hc]; exact ih r h1
      · simp [hc]; exact ih _ h1

theorem mem_addPass {dir : PortDir} {e : String × Int} :
    ∀ (l r : List (String × Int)), e ∈ (addPass dir r l).2 → e ∈ r ∨ e ∈ l := by
  intro l
  induction l with
  | nil => intro r h; exact Or.inl (by simpa [addPass] using h)
  | cons hd tl ih =>
    intro r h
    unfold addPass at h
    by_cases hc : portMapContains r hd.1
    · simp [hc] at h
      rcases ih r h with h1 | h1
      · exact Or.inl h1
      · exact Or.inr (List.mem_cons_of_mem _ h1)
    · simp [hc] at h
      rcases ih _ h with h1 | h1
      · rcases mem_portMapInsert h1 with h2 | h2
        · exact Or.inr (by simp [h2])
        · exact Or.inl h2
      · exact Or.inr (List.mem_cons_of_mem _ h1)

theorem addPass_no_additions {dir : PortDir} :
    ∀ (l r : List (String × Int)), (∀ e ∈ l, portMapContains r e.1 = true) →
      addPass dir r l = ([], r) := by
  intro l
  induction l with
  | nil => intro r _; simp [addPass]
  | cons hd tl ih =>
    intro r h
    have hhd := h hd (List.mem_cons_self _ _)
    unfold addPass
    simp [hhd]
    exact ih r (fun e he => h e (List.mem_cons_of_mem _ he))

theorem changePass_events_change {dir : PortDir} {fresh r : List (String × Int)} :
    ∀ e ∈ (changePass dir fresh r).1, e.change = .changed := by
  induction r with
  | nil => simp [changePass]
  | cons hd tl ih =>
    intro e he
    unfold changePass at he
    by_cases hc : portMapValue fresh hd.1 != hd.2
    · simp [hc] at he
      rcases he with he | he
      · simp [he]
      · exact ih e he
    · simp [hc] at he
      exact ih e he

theorem changePass_values {dir : PortDir} {fresh r : List (String × Int)} {e : String × Int}
    (h : e ∈ (changePass dir fresh r).2) : e.2 = portMapValue fresh e.1 := by
  induction r with
  | nil => simp [changePass] at h
  | cons hd tl ih =>
    unfold changePass at h
    by_cases hc : portMapValue fresh hd.1 != hd.2
    · simp [hc] at h
      rcases h with h | h
      · subst h; rfl
      · exact ih h
    · simp [hc] at h
      rcases h with h | h
      · subst h
        simp only [bne_iff_ne, ne_eq, Decidable.not_not] at hc
        exact hc.symm
      · exact ih h

theorem changePass_map_fst {dir : PortDir} {fresh : List (String × Int)} :
    ∀ r : List (String × Int), ((changePass dir fresh r).2).map Prod.fst = r.map Prod.fst := by
  intro r
  induction r with
  | nil => simp [changePass]
  | cons hd tl ih =>
    unfold changePass
    by_cases hc : portMapValue fresh hd.1 != hd.2
    · simp [hc, ih]
    · simp [hc, ih]

theorem changePass_keys {dir : PortDir} {fresh r : List (String × Int)} {e : String × Int}
    (h : e ∈ (changePass dir fresh r).2) : ∃ v, (e.1, v) ∈ r := by
  have h1 : e.1 ∈ ((changePass dir fresh r).2).map Prod.fst := List.mem_map_of_mem _ h
  rw [changePass_map_fst] at h1
  rcases List.mem_map.mp h1 with ⟨x, hm, hk⟩
  refine ⟨x.2, ?_⟩
  rw [← hk]
  exact hm

theorem contains_changePass {dir : PortDir} {fresh r : List (String × Int)} {k : String} :
    portMapContains (changePass dir fresh r).2 k = portMapContains r k := by
  induction r with
  | nil => simp [changePass]
  | cons hd tl ih =>
    unfold changePass
    by_cases hc : portMapValue fresh hd.1 != hd.2
    · simp [hc, portMapContains] at ih ⊢
      rw [ih]
    · simp [hc, portMapContains] at ih ⊢
      rw [ih]

theorem changePass_no_changes {dir : PortDir} {fresh r : List (String × Int)}
    (h : ∀ e ∈ r, portMapValue fresh e.1 = e.2) :
    changePass dir fresh r = ([], r) := by
  induction r with
  | nil => simp [changePass]
  | cons hd tl ih =>
    have hhd := h hd (List.mem_cons_self _ _)
    have htl := ih (fun e he => h e (List.mem_cons_of_mem _ he))
    unfold changePass
    simp [htl, hhd]

/-- One direction of the diff stabilizes after a single run: the retained map
produced by the three passes is a fixed point of each pass. -/
theorem dirIdem (dir : PortDir) (fresh r : List (String × Int)) :
    deletePass dir fresh (changePass dir fresh (addPass dir (deletePass dir fresh r).2 fresh).2).2
        = ([], (changePass dir fresh (addPass dir (deletePass dir fresh r).2 fresh).2).2) ∧
    addPass dir (changePass dir fresh (addPass dir (deletePass dir fresh r).2 fresh).2).2 fresh
        = ([], (changePass dir fresh (addPass dir (deletePass dir fresh r).2 fresh).2).2) ∧
    changePass dir fresh (changePass dir fresh (addPass dir (deletePass dir fresh r).2 fresh).2).2
        = ([], (changePass dir fresh (addPass dir (deletePass dir fresh r).2 fresh).2).2) := by
  refine ⟨deletePass_no_deletions ?_, addPass_no_additions _ _ ?_, changePass_no_changes ?_⟩
  · intro e he
    rcases changePass_keys he with ⟨v, hv⟩
    rcases mem_addPass fresh _ hv with h1 | h1
    · exact (mem_deletePass h1).2
    · exact contains_of_mem h1
  · intro e he
    rw [contains_changePass]
    exact contains_addPass_of_mem fresh _ he
  · intro e he
    exact (changePass_values he).symm

end KMI_Ports

namespace KMI_Ports

/-- **C6.**  The port-registry diff is idempotent: for any retained port
table and any (normalized) OS enumerations, running `checkPortsForChanges` a
second time with the enumerations unchanged emits no events, leaves the
retained table untouched and returns 0. -/
theorem C6_diff_idempotent (s : PortsState) (inNames outNames : List String) :
    checkPortsForChanges (checkPortsForChanges s inNames outNames).2.1 inNames outNames
      = ([], (checkPortsForChanges s inNames outNames).2.1, 0) := by
  simp only [checkPortsForChanges]
  rw [(dirIdem .input (buildPortMap inNames) s.midiInputPorts).1,
      (dirIdem .output (buildPortMap outNames) s.midiOutputPorts).1]
  simp only
  rw [(dirIdem .input (buildPortMap inNames) s.midiInputPorts).2.1,
      (dirIdem .output (buildPortMap outNames) s.midiOutputPorts).2.1]
  simp only
  rw [(dirIdem .input (buildPortMap inNames) s.midiInputPorts).2.2,
      (dirIdem .output (buildPortMap outNames) s.midiOutputPorts).2.2]
  simp

/-- Auxiliary: a concatenation of all-disconnect, all-connect and all-changed
event segments equals its filters by change kind, concatenated in that
order. -/
theorem ordered_filter_decomposition (d1 d2 a1 a2 c1 c2 : List PortEvent)
    (hd1 : ∀ e ∈ d1, e.change = .disconnect) (hd2 : ∀ e ∈ d2, e.change = .disconnect)
    (ha1 : ∀ e ∈ a1, e.change = .connect) (ha2 : ∀ e ∈ a2, e.change = .connect)
    (hc1 : ∀ e ∈ c1, e.change = .changed) (hc2 : ∀ e ∈ c2, e.change = .changed) :
    d1 ++ d2 ++ a1 ++ a2 ++ c1 ++ c2
      = ((d1 ++ d2 ++ a1 ++ a2 ++ c1 ++ c2).filter (·.change == .disconnect))
        ++ ((d1 ++ d2 ++ a1 ++ a2 ++ c1 ++ c2).filter (·.change == .connect))
        ++ ((d1 ++ d2 ++ a1 ++ a2 ++ c1 ++ c2).filter (·.change == .changed)) := by
  have full : ∀ (l : List PortEvent) (k : PortChange), (∀ e ∈ l, e.change = k) →
      l.filter (·.change == k) = l := by
    intro l k h
    exact List.filter_eq_self.mpr (fun e he => by simp [h e he])
  have empty : ∀ (l : List PortEvent) (k k2 : PortChange), k2 ≠ k → (∀ e ∈ l, e.change = k) →
      l.filter (·.change == k2) = [] := by
    intro l k k2 hne h
    refine List.filter_eq_nil_iff.mpr (fun e he => ?_)
    simp [h e he]
    exact fun hx => hne hx.symm
  simp only [List.filter_append]
  rw [full d1 _ hd1, full d2 _ hd2, full a1 _ ha1, full a2 _ ha2, full c1 _ hc1, full c2 _ hc2,
      empty a1 _ _ (by decide) ha1, empty a2 _ _ (by decide) ha2,
      empty c1 _ _ (by decide) hc1, empty c2 _ _ (by decide) hc2,
      empty d1 _ _ (by decide) hd1, empty d2 _ _ (by decide) hd2,
      empty a1 _ _ (by decide) ha1, empty a2 _ _ (by decide) ha2,
      empty d1 _ _ (by decide) hd1, empty d2 _ _ (by decide) hd2,
      empty c1 _ _ (by decide) hc1, empty c2 _ _ (by decide) hc2]
  simp

/-- **C7.**  First conjunct: with the retained input table `{A↦0, B↦1}` and a
fresh enumeration reporting only `B` (at index 0), the diff emits exactly
`disconnect(A, 0)` followed by `changed(B, 0)` — no connect event — and
stores `{B↦0}`.  Second conjunct: for every retained table and enumeration,
the emitted event list is its disconnect events, then its connect events,
then its changed (renumber) events — deletions are always reported before
additions, and additions before renumbers. -/
theorem C7_diff_order :
    (checkPortsForChanges ⟨[("A", 0), ("B", 1)], []⟩ ["B"] []
      = ([⟨"A", .input, .disconnect, 0⟩, ⟨"B", .input, .changed, 0⟩],
         ⟨[("B", 0)], []⟩, 2)) ∧
    ∀ (s : PortsState) (inNames outNames : List String),
      (checkPortsForChanges s inNames outNames).1
        = (checkPortsForChanges s inNames outNames).1.filter (·.change == .disconnect)
          ++ (checkPortsForChanges s inNames outNames).1.filter (·.change == .connect)
          ++ (checkPortsForChanges s inNames outNames).1.filter (·.change == .changed) := by
  constructor
  · decide
  · intro s inNames outNames
    simp only [checkPortsForChanges]
    exact ordered_filter_decomposition _ _ _ _ _ _
      deletePass_events_change deletePass_events_change
      (addPass_events_change _ _) (addPass_events_change _ _)
      changePass_events_change changePass_events_change

end KMI_Ports

namespace MidiDeviceManager

/-- **C2, counterexample.**  The claim says every `*_SENT_WAIT` state that
sees no reply within the 35 s window transitions to FAIL.  In
`FWUD_STATE_GLOBALS_REQ_SENT_WAIT` with the full window elapsed (36 s) and
nothing pending, `slotPollVersion` instead moves to `FWUD_STATE_BL_SEND`
("No response to globals request, skipping") — never FAIL. -/
theorem C2_globals_wait_skips_to_bl_send :
    (slotPollVersion c2Base).1.firmwareUpdateState = .FWUD_STATE_BL_SEND ∧
    FwUpdateState.FWUD_STATE_BL_SEND ≠ .FWUD_STATE_FAIL ∧
    c2Base.firmwareUpdateState = .FWUD_STATE_GLOBALS_REQ_SENT_WAIT ∧
    c2Base.packetSize = 0 ∧ FW_UPDATE_TIMEOUT_INTERVAL < c2Base.elapsed := by
  exact ⟨by decide, by decide, by decide, by decide, by decide⟩

/-- **C2, amended.**  `FWUD_STATE_BL_SENT_WAIT` and `FWUD_STATE_FW_SENT_WAIT`
do time out to FAIL once more than 35 s have elapsed with no reply pending,
and FAIL steps to IDLE on the next poll; `FWUD_STATE_GLOBALS_REQ_SENT_WAIT`
instead times out early into `FWUD_STATE_BL_SEND` as soon as fewer than 15 s
of the 35 s window remain (the globals backup is skipped, FAIL is never
entered from that state). -/
theorem C2_timeout_transitions (s : PollState) (hpkt : s.packetSize = 0) :
    ((s.firmwareUpdateState = .FWUD_STATE_BL_SENT_WAIT ∨
      s.firmwareUpdateState = .FWUD_STATE_FW_SENT_WAIT) →
      FW_UPDATE_TIMEOUT_INTERVAL < s.elapsed →
      (slotPollVersion s).1.firmwareUpdateState = .FWUD_STATE_FAIL) ∧
    (s.firmwareUpdateState = .FWUD_STATE_GLOBALS_REQ_SENT_WAIT →
      Int.tdiv (FW_UPDATE_TIMEOUT_INTERVAL - s.elapsed) 1000 < 15 →
      (slotPollVersion s).1.firmwareUpdateState = .FWUD_STATE_BL_SEND) ∧
    (s.firmwareUpdateState = .FWUD_STATE_FAIL →
      (slotPollVersion s).1.firmwareUpdateState = .FWUD_STATE_IDLE) := by
  obtain ⟨st, el, pk, ib, bm, sg, pid, dfv, po, fl, cyc, ps, co⟩ := s
  simp only at hpkt
  subst hpkt
  refine ⟨?_, ?_, ?_⟩
  · rintro (h | h) helapsed <;> simp only at h <;> subst h <;>
      simp [slotPollVersion, helapsed]
  · intro h hrem
    simp only at h
    subst h
    have h25 : ¬(Int.tdiv (FW_UPDATE_TIMEOUT_INTERVAL - el) 1000 = 25) := by
      intro hx; rw [hx] at hrem; omega
    simp [slotPollVersion, hrem, h25]
  · intro h
    simp only at h
    subst h
    simp [slotPollVersion]

/-- **C2, witness** for the amended theorem: a concrete session in
`FWUD_STATE_BL_SENT_WAIT` at 36 s with an empty outgoing buffer steps to
FAIL. -/
theorem C2_timeout_transitions_witness :
    c2BaseBl.packetSize = 0 ∧
    (slotPollVersion c2BaseBl).1.firmwareUpdateState = .FWUD_STATE_FAIL :=
  ⟨rfl, (C2_timeout_transitions c2BaseBl rfl).1 (Or.inl rfl) (by decide)⟩

end MidiDeviceManager

namespace MidiDeviceManager

/-- **C3, counterexample.**  Two runs from the reset state differing only in
an RPN address (CC101/CC100) received on channel **1** between channel **0**'s
NRPN address bytes and its data bytes: without the interlude, channel 0's
CC6/CC38 emit an NRPN event; with it, the same channel-0 data bytes emit an
RPN event instead — so an address CC on one channel *does* change which
addressing mode governs a later data CC on a different channel. -/
theorem C3_per_channel_mode_counterexample :
    ((parseAll initialRunningStatus resetParamState c3RunA).2.2.filter
        (fun e => e.isNrpn || e.isRpn) = [.nrpn 0 5 128]) ∧
    ((parseAll initialRunningStatus resetParamState c3RunB).2.2.filter
        (fun e => e.isNrpn || e.isRpn) = [.rpn 0 32767 128]) := by
  exact ⟨by decide, by decide⟩

/-- `upd f i v` read back at `i`. -/
theorem upd_same (f : Nat → Nat) (i v : Nat) : upd f i v i = v := by
  simp [upd]

/-- CC status-byte arithmetic for a channel below 16. -/
theorem ccStatusByte (c : Nat) (hc : c < 16) :
    (0xB0 + c) &&& 0xFF = 0xB0 + c ∧ 127 < 0xB0 + c ∧
    (0xB0 + c) &&& 0xF0 = 0xB0 ∧ (0xB0 + c) &&& 0x0F = c := by
  interval_cases c <;> exact ⟨by decide, by decide, by decide, by decide⟩

/-- A three-byte control-change packet on channel `c` latches status `0xB0`
and channel `c` and dispatches to the CC/NRPN assembler. -/
theorem parse_cc_packet (rs : RunningStatus) (st : ParamState) (c d1 d2 : Nat) (hc : c < 16) :
    slotParsePacket rs st [0xB0 + c, d1, d2]
      = (⟨0xB0, c⟩, (controlChangeCase st c (d1 &&& 0xFF) (d2 &&& 0xFF)).1,
         RxEvent.raw 0xB0 (d1 &&& 0xFF) (d2 &&& 0xFF) c
           :: (controlChangeCase st c (d1 &&& 0xFF) (d2 &&& 0xFF)).2) := by
  obtain ⟨hmask, hgt, hhi, hlo⟩ := ccStatusByte c hc
  simp [slotParsePacket, hmask, hgt, hhi, hlo, MIDI_NOTE_OFF, MIDI_NOTE_ON,
    MIDI_NOTE_AFTERTOUCH, MIDI_CONTROL_CHANGE]

/-- CC99 (NRPN address MSB) stores the byte for the packet's channel and sets
the session-wide mode to NRPN. -/
theorem controlChangeCase_cc99 (st : ParamState) (c v : Nat) :
    controlChangeCase st c 99 v
      = ({ st with NRPN_MSB := upd st.NRPN_MSB c v, paramMode := .MODE_NRPN },
         [.controlChange c 99 v]) := by
  simp [controlChangeCase, MIDI_CC_RPN_LSB, MIDI_CC_RPN_MSB, MIDI_CC_NRPN_LSB, MIDI_CC_NRPN_MSB]

/-- CC101 (RPN address MSB) stores the byte for the packet's channel and sets
the session-wide mode to RPN. -/
theorem controlChangeCase_cc101 (st : ParamState) (c v : Nat) :
    controlChangeCase st c 101 v
      = ({ st with RPN_MSB := upd st.RPN_MSB c v, paramMode := .MODE_RPN },
         [.controlChange c 101 v]) := by
  simp [controlChangeCase, MIDI_CC_RPN_LSB, MIDI_CC_RPN_MSB, MIDI_CC_NRPN_LSB, MIDI_CC_NRPN_MSB]

/-- CC38 (data LSB) emits an RPN or NRPN event — or neither — according to the
single shared `paramMode`, whatever the packet's channel. -/
theorem controlChangeCase_cc38 (st : ParamState) (c w : Nat) :
    (controlChangeCase st c 38 w).2.filter (fun e => e.isNrpn || e.isRpn)
      = (match st.paramMode with
         | .MODE_UNDEF => []
         | .MODE_RPN => [.rpn c ((st.RPN_MSB c <<< 7) ||| st.RPN_LSB c)
             ((st.RPN_DATA_MSB c <<< 7) ||| w)]
         | .MODE_NRPN => [.nrpn c ((st.NRPN_MSB c <<< 7) ||| st.NRPN_LSB c)
             ((st.NRPN_DATA_MSB c <<< 7) ||| w)]) := by
  cases hm : st.paramMode <;>
    simp [controlChangeCase, MIDI_CC_RPN_LSB, MIDI_CC_RPN_MSB, MIDI_CC_NRPN_LSB,
      MIDI_CC_NRPN_MSB, MIDI_CC_DATA_MSB, MIDI_CC_DATA_LSB, hm, upd_same,
      RxEvent.isNrpn, RxEvent.isRpn]

/-- **C3, amended.**  The addressing mode is a single per-session value shared
by all 16 channels: an NRPN (CC99) or RPN (CC101) address CC received on *any*
channel `c` sets the session's `paramMode` for every channel, and the kind of
event a later data-LSB CC (CC38) on *any* channel `c2` produces is determined
solely by that shared `paramMode` (the address and data *bytes* remain
per-channel). -/
theorem C3_mode_shared_across_channels (rs : RunningStatus) (st : ParamState)
    (c c2 v w : Nat) (hc : c < 16) (hc2 : c2 < 16) :
    ((slotParsePacket rs st [0xB0 + c, 99, v]).2.1.paramMode = .MODE_NRPN) ∧
    ((slotParsePacket rs st [0xB0 + c, 101, v]).2.1.paramMode = .MODE_RPN) ∧
    ((slotParsePacket rs st [0xB0 + c2, 38, w]).2.2.filter (fun e => e.isNrpn || e.isRpn)
      = (match st.paramMode with
         | .MODE_UNDEF => []
         | .MODE_RPN => [.rpn c2 ((st.RPN_MSB c2 <<< 7) ||| st.RPN_LSB c2)
             ((st.RPN_DATA_MSB c2 <<< 7) ||| (w &&& 0xFF))]
         | .MODE_NRPN => [.nrpn c2 ((st.NRPN_MSB c2 <<< 7) ||| st.NRPN_LSB c2)
             ((st.NRPN_DATA_MSB c2 <<< 7) ||| (w &&& 0xFF))])) := by
  have h99 : (99 : Nat) &&& 0xFF = 99 := by decide
  have h101 : (101 : Nat) &&& 0xFF = 101 := by decide
  have h38 : (38 : Nat) &&& 0xFF = 38 := by decide
  refine ⟨?_, ?_, ?_⟩
  · rw [parse_cc_packet rs st c 99 v hc]
    simp only [h99, controlChangeCase_cc99]
  · rw [parse_cc_packet rs st c 101 v hc]
    simp only [h101, controlChangeCase_cc101]
  · rw [parse_cc_packet rs st c2 38 w hc2]
    simp only [h38]
    have : (RxEvent.raw 0xB0 38 (w &&& 0xFF) c2
        :: (controlChangeCase st c2 38 (w &&& 0xFF)).2).filter (fun e => e.isNrpn || e.isRpn)
        = (controlChangeCase st c2 38 (w &&& 0xFF)).2.filter (fun e => e.isNrpn || e.isRpn) := by
      simp [RxEvent.isNrpn, RxEvent.isRpn]
    rw [this, controlChangeCase_cc38]

/-- **C3, witness** for the amended theorem at channels 3 and 7 from the
reset state (whose mode is `MODE_UNDEF`, so the data CC emits nothing). -/
theorem C3_mode_shared_across_channels_witness :
    (3 : Nat) < 16 ∧ (7 : Nat) < 16 ∧
    (slotParsePacket initialRunningStatus resetParamState [0xB0 + 3, 99, 5]).2.1.paramMode
      = .MODE_NRPN :=
  ⟨by decide, by decide,
   (C3_mode_shared_across_channels initialRunningStatus resetParamState 3 7 5 0
     (by decide) (by decide)).1⟩

/-- **C8.**  From the reset parameter state, CC99=0, CC98=5, CC6=1, CC38=0 on
channel 2 emit exactly one NRPN event `(chan 2, param 5, value 128)`, with no
NRPN event before the CC38; a subsequent CC96 (increment) immediately emits
`(2, 5, 129)`; and from the post-prefix state — whose data LSB is 0 — any
number of CC97 (decrement) packets emits no NRPN event and leaves the data
LSB clamped at 0. -/
theorem C8_nrpn_assembly :
    ((parseAll initialRunningStatus resetParamState c8Prefix).2.2.filter RxEvent.isNrpn
        = [.nrpn 2 5 128]) ∧
    ((parseAll initialRunningStatus resetParamState (c8Prefix.take 3)).2.2.filter
        RxEvent.isNrpn = []) ∧
    ((slotParsePacket c8Latch c8State [0xB2, 96, 0]).2.2.filter RxEvent.isNrpn
        = [.nrpn 2 5 129]) ∧
    (∀ n, (c8DecIter n).2.2.filter RxEvent.isNrpn = [] ∧
          (c8DecIter n).2.1.NRPN_DATA_LSB 2 = 0) := by
  have hstep : slotParsePacket c8Latch c8State [0xB2, 97, 0]
      = (c8Latch, c8State, [.raw 0xB0 97 0 2, .controlChange 2 97 0]) := rfl
  have key : ∀ n, (c8DecIter n).1 = c8Latch ∧ (c8DecIter n).2.1 = c8State ∧
      (c8DecIter n).2.2.filter RxEvent.isNrpn = [] := by
    intro n
    induction n with
    | zero => exact ⟨rfl, rfl, rfl⟩
    | succ k ih =>
      obtain ⟨ih1, ih2, ih3⟩ := ih
      have hun : c8DecIter (k + 1)
          = ((slotParsePacket (c8DecIter k).1 (c8DecIter k).2.1 [0xB2, 97, 0]).1,
             (slotParsePacket (c8DecIter k).1 (c8DecIter k).2.1 [0xB2, 97, 0]).2.1,
             (c8DecIter k).2.2
               ++ (slotParsePacket (c8DecIter k).1 (c8DecIter k).2.1 [0xB2, 97, 0]).2.2) := rfl
      rw [hun, ih1, ih2, hstep]
      refine ⟨rfl, rfl, ?_⟩
      rw [List.filter_append, ih3]
      decide
  refine ⟨by decide, by decide, by decide, fun n => ⟨(key n).2.2, ?_⟩⟩
  rw [(key n).2.1]
  decide

/-- **C9.**  Whenever the pending outgoing buffer is larger than
`MAX_MIDI_SYSEX_SIZE` (whatever its value) at drain time, `slotEmptyMIDIBuffer`
logs the overflow fault and clears the entire buffer, transmitting nothing. -/
theorem C9_overflow_discards_buffer (MAX_MIDI_SYSEX_SIZE : Nat) (s : BufferState)
    (h : MAX_MIDI_SYSEX_SIZE < s.packet.length) :
    slotEmptyMIDIBuffer MAX_MIDI_SYSEX_SIZE s
      = ([.logBufferOverflow], { s with packet := [] }) := by
  unfold slotEmptyMIDIBuffer
  rw [if_neg (by simp only [beq_iff_eq]; omega), if_pos h]

/-- **C9, witness**: a 3-byte pending buffer with the bound at 2. -/
theorem C9_overflow_discards_buffer_witness :
    (2 : Nat) < c9Fixture.packet.length ∧
    slotEmptyMIDIBuffer 2 c9Fixture = ([.logBufferOverflow], { c9Fixture with packet := [] }) :=
  ⟨by decide, C9_overflow_discards_buffer 2 c9Fixture (by decide)⟩

/-- **C10.**  The running-status latch is shared state across sessions: after
session X parses a status-carrying message, session Y's status-less
(running-status) message `[0x44, 0x50]` is interpreted with X's latched status
and channel — NoteOn on channel 0 if X last saw `0x90`, a control change on
channel 3 if X last saw `0xB3` — so Y's emitted events depend on X's input
stream even though Y's own bytes are identical. -/
theorem C10_running_status_cross_session :
    ((parseInY ((parseInX initialTwoSessions [0x90, 0x40, 0x7F]).1) [0x44, 0x50]).2
       = [.raw 0x90 0x44 0x50 0, .noteOn 0 0x44 0x50]) ∧
    ((parseInY ((parseInX initialTwoSessions [0xB3, 0x40, 0x7F]).1) [0x44, 0x50]).2
       = [.raw 0xB0 0x44 0x50 3, .controlChange 3 0x44 0x50]) ∧
    ((parseInY ((parseInX initialTwoSessions [0x90, 0x40, 0x7F]).1) [0x44, 0x50]).2
       ≠ (parseInY ((parseInX initialTwoSessions [0xB3, 0x40, 0x7F]).1) [0x44, 0x50]).2) := by
  exact ⟨by decide, by decide, by decide⟩

end MidiDeviceManager
